import Mathlib

/-!
Shallow embedding of the SuperUI servers' component lookup/search, visual
pattern matching, component listing, and template conversation logic
(`component-finder`, `component-matcher`, `component-service`,
`template-conversation`), together with the verification of the spec's
claims about them.

JavaScript strings are modelled as Lean `String`s; the string helpers below
(lower-casing, trimming, prefix/substring tests, whitespace splitting,
ordered-key lookup) reproduce the JavaScript operations used by the source
(`toLowerCase`, `trim`, `startsWith`, `includes`, `split(/\s+/)`, object
property access in insertion order). `Array.prototype.sort`, which is a
stable sort, is modelled by `List.mergeSort`, which is also stable.
-/

set_option maxRecDepth 1000000

namespace SuperUI

/-- ASCII whitespace, modeling the JavaScript `\s` class on the ASCII range. -/
def isWsChar (c : Char) : Bool := c == ' ' || c == '\t' || c == '\n' || c == '\r'

/-- JavaScript `String.prototype.toLowerCase` (ASCII data only in this code base). -/
def lowerS (s : String) : String := ⟨s.data.map Char.toLower⟩

/-- Drop whitespace from both ends of a character list. -/
def trimL (s : List Char) : List Char :=
  ((s.dropWhile isWsChar).reverse.dropWhile isWsChar).reverse

/-- `query.toLowerCase().trim()`, the normalization applied to every query. -/
def normalize (s : String) : String := ⟨trimL (lowerS s).data⟩

/-- JavaScript `a.startsWith(b)` on character lists. -/
def startsWithL : List Char → List Char → Bool
  | _, [] => true
  | [], _ :: _ => false
  | a :: as, b :: bs => a == b && startsWithL as bs

/-- JavaScript `a.startsWith(b)`. -/
def startsWithS (s p : String) : Bool := startsWithL s.data p.data

/-- JavaScript `a.includes(b)` on character lists. -/
def containsL : List Char → List Char → Bool
  | [], needle => needle.isEmpty
  | h :: t, needle => startsWithL (h :: t) needle || containsL t needle

/-- JavaScript `a.includes(b)`. -/
def containsS (s sub : String) : Bool := containsL s.data sub.data

/-- Worker for `splitWs`: `cur` is the reversed pending token, `inWs` says
    whether we are inside a whitespace run (whose token was already emitted). -/
def splitWsAux : List Char → List Char → Bool → List String
  | [], cur, inWs => if inWs then [""] else [String.mk cur.reverse]
  | c :: rest, cur, inWs =>
    if isWsChar c then
      if inWs then splitWsAux rest [] true
      else String.mk cur.reverse :: splitWsAux rest [] true
    else splitWsAux rest (c :: cur) false

/-- JavaScript `s.split(/\s+/)`: splits on maximal whitespace runs, producing
    an empty token before a leading run and after a trailing run, and `[""]`
    on the empty string. -/
def splitWs (s : String) : List String := splitWsAux s.data [] false

/-- JavaScript object property access on an insertion-ordered key/value list. -/
def lookupL {κ α : Type} [DecidableEq κ] (k : κ) : List (κ × α) → Option α
  | [] => none
  | (k2, v) :: rest => if k = k2 then some v else lookupL k rest

/-- A record of the component table (`ComponentInfo` in component-finder). -/
structure ComponentInfo where
  componentName : String
  displayName : String
  packageName : String
  importStatement : String
  usage : String
  description : String
  category : String
  tags : List String
  library : Option String
  installCommand : Option String
  documentationUrl : Option String
deriving DecidableEq

/-- A visual pattern record (component-matcher). -/
structure VisualPattern where
  keywords : List String
  components : List String
  priority : Nat
deriving DecidableEq

set_option maxHeartbeats 2000000 in
/-- The static component table (`COMPONENT_LIBRARY` in component-finder),
    as an insertion-ordered association list from table key to record.
    Field order: componentName, displayName, packageName, importStatement,
    usage, description, category, tags, library, installCommand, documentationUrl. -/
def COMPONENT_LIBRARY : List (String × ComponentInfo) := [
  ("button", ⟨"button", "Button", "@radix-ui/react-button", "import \x7b Button \x7d from \"@/components/ui/button\"", "<Button variant=\"default\">Click me</Button>", "A versatile button component with multiple variants and sizes", "form", ["button", "click", "action", "primary", "secondary"], none, none, none⟩),
  ("input", ⟨"input", "Input", "@radix-ui/react-input", "import \x7b Input \x7d from \"@/components/ui/input\"", "<Input placeholder=\"Enter text...\" />", "A text input component for user input", "form", ["input", "text", "form", "field", "type"], none, none, none⟩),
  ("textarea", ⟨"textarea", "Textarea", "@radix-ui/react-textarea", "import \x7b Textarea \x7d from \"@/components/ui/textarea\"", "<Textarea placeholder=\"Enter your message...\" />", "A multi-line text input component", "form", ["textarea", "text", "multiline", "message", "comment"], none, none, none⟩),
  ("select", ⟨"select", "Select", "@radix-ui/react-select", "import \x7b Select, SelectContent, SelectItem, SelectTrigger, SelectValue \x7d from \"@/components/ui/select\"", "<Select><SelectTrigger><SelectValue placeholder=\"Select option\" /></SelectTrigger><SelectContent><SelectItem value=\"option1\">Option 1</SelectItem></SelectContent></Select>", "A dropdown select component", "form", ["select", "dropdown", "option", "choice", "form"], none, none, none⟩),
  ("checkbox", ⟨"checkbox", "Checkbox", "@radix-ui/react-checkbox", "import \x7b Checkbox \x7d from \"@/components/ui/checkbox\"", "<Checkbox />", "A checkbox input component", "form", ["checkbox", "check", "form", "boolean", "toggle"], none, none, none⟩),
  ("radio", ⟨"radio-group", "Radio Group", "@radix-ui/react-radio-group", "import \x7b RadioGroup, RadioGroupItem \x7d from \"@/components/ui/radio-group\"", "<RadioGroup><RadioGroupItem value=\"option1\" />Option 1</RadioGroup>", "A radio button group component", "form", ["radio", "group", "choice", "form", "option"], none, none, none⟩),
  ("card", ⟨"card", "Card", "@radix-ui/react-card", "import \x7b Card, CardContent, CardHeader, CardTitle \x7d from \"@/components/ui/card\"", "<Card><CardHeader><CardTitle>Title</CardTitle></CardHeader><CardContent>Content</CardContent></Card>", "A flexible card component for content display", "layout", ["card", "container", "content", "panel", "box"], none, none, none⟩),
  ("sheet", ⟨"sheet", "Sheet", "@radix-ui/react-dialog", "import \x7b Sheet, SheetContent, SheetHeader, SheetTitle, SheetTrigger \x7d from \"@/components/ui/sheet\"", "<Sheet><SheetTrigger>Open</SheetTrigger><SheetContent><SheetHeader><SheetTitle>Title</SheetTitle></SheetHeader></SheetContent></Sheet>", "A slide-out panel component", "layout", ["sheet", "panel", "drawer", "slide", "overlay"], none, none, none⟩),
  ("dialog", ⟨"dialog", "Dialog", "@radix-ui/react-dialog", "import \x7b Dialog, DialogContent, DialogHeader, DialogTitle, DialogTrigger \x7d from \"@/components/ui/dialog\"", "<Dialog><DialogTrigger>Open</DialogTrigger><DialogContent><DialogHeader><DialogTitle>Title</DialogTitle></DialogHeader></DialogContent></Dialog>", "A modal dialog component", "layout", ["dialog", "modal", "popup", "overlay", "window"], none, none, none⟩),
  ("popover", ⟨"popover", "Popover", "@radix-ui/react-popover", "import \x7b Popover, PopoverContent, PopoverTrigger \x7d from \"@/components/ui/popover\"", "<Popover><PopoverTrigger>Open</PopoverTrigger><PopoverContent>Content</PopoverContent></Popover>", "A floating panel component", "layout", ["popover", "tooltip", "floating", "panel", "hover"], none, none, none⟩),
  ("tabs", ⟨"tabs", "Tabs", "@radix-ui/react-tabs", "import \x7b Tabs, TabsContent, TabsList, TabsTrigger \x7d from \"@/components/ui/tabs\"", "<Tabs><TabsList><TabsTrigger value=\"tab1\">Tab 1</TabsTrigger></TabsList><TabsContent value=\"tab1\">Content</TabsContent></Tabs>", "A tabbed interface component", "navigation", ["tabs", "navigation", "menu", "switching", "panel"], none, none, none⟩),
  ("accordion", ⟨"accordion", "Accordion", "@radix-ui/react-accordion", "import \x7b Accordion, AccordionContent, AccordionItem, AccordionTrigger \x7d from \"@/components/ui/accordion\"", "<Accordion><AccordionItem><AccordionTrigger>Title</AccordionTrigger><AccordionContent>Content</AccordionContent></AccordionItem></Accordion>", "A collapsible content component", "navigation", ["accordion", "collapse", "expand", "content", "faq"], none, none, none⟩),
  ("breadcrumb", ⟨"breadcrumb", "Breadcrumb", "@radix-ui/react-breadcrumb", "import \x7b Breadcrumb, BreadcrumbItem, BreadcrumbLink, BreadcrumbList, BreadcrumbPage, BreadcrumbSeparator \x7d from \"@/components/ui/breadcrumb\"", "<Breadcrumb><BreadcrumbList><BreadcrumbItem><BreadcrumbLink>Home</BreadcrumbLink></BreadcrumbItem><BreadcrumbSeparator /><BreadcrumbItem><BreadcrumbPage>Current</BreadcrumbPage></BreadcrumbItem></BreadcrumbList></Breadcrumb>", "A navigation breadcrumb component", "navigation", ["breadcrumb", "navigation", "path", "hierarchy", "location"], none, none, none⟩),
  ("table", ⟨"table", "Table", "@radix-ui/react-table", "import \x7b Table, TableBody, TableCell, TableHead, TableHeader, TableRow \x7d from \"@/components/ui/table\"", "<Table><TableHeader><TableRow><TableHead>Header</TableHead></TableRow></TableHeader><TableBody><TableRow><TableCell>Cell</TableCell></TableRow></TableBody></Table>", "A data table component", "data", ["table", "data", "grid", "rows", "columns"], none, none, none⟩),
  ("badge", ⟨"badge", "Badge", "@radix-ui/react-badge", "import \x7b Badge \x7d from \"@/components/ui/badge\"", "<Badge variant=\"default\">Badge</Badge>", "A small status indicator component", "data", ["badge", "label", "status", "indicator", "tag"], none, none, none⟩),
  ("avatar", ⟨"avatar", "Avatar", "@radix-ui/react-avatar", "import \x7b Avatar, AvatarFallback, AvatarImage \x7d from \"@/components/ui/avatar\"", "<Avatar><AvatarImage src=\"/img.jpg\" /><AvatarFallback>CN</AvatarFallback></Avatar>", "A user profile image component", "data", ["avatar", "profile", "image", "user", "picture"], none, none, none⟩),
  ("progress", ⟨"progress", "Progress", "@radix-ui/react-progress", "import \x7b Progress \x7d from \"@/components/ui/progress\"", "<Progress value=\x7b33\x7d />", "A progress bar component", "data", ["progress", "bar", "loading", "percent", "status"], none, none, none⟩),
  ("skeleton", ⟨"skeleton", "Skeleton", "@radix-ui/react-skeleton", "import \x7b Skeleton \x7d from \"@/components/ui/skeleton\"", "<Skeleton className=\"h-4 w-[250px]\" />", "A loading skeleton component", "data", ["skeleton", "loading", "placeholder", "shimmer", "wait"], none, none, none⟩),
  ("alert", ⟨"alert", "Alert", "@radix-ui/react-alert", "import \x7b Alert, AlertDescription, AlertTitle \x7d from \"@/components/ui/alert\"", "<Alert><AlertTitle>Title</AlertTitle><AlertDescription>Description</AlertDescription></Alert>", "An alert notification component", "feedback", ["alert", "notification", "message", "warning", "info"], none, none, none⟩),
  ("toast", ⟨"toast", "Toast", "@radix-ui/react-toast", "import \x7b Toast, ToastAction, ToastClose, ToastDescription, ToastTitle \x7d from \"@/components/ui/toast\"", "<Toast><ToastTitle>Title</ToastTitle><ToastDescription>Description</ToastDescription><ToastAction>Action</ToastAction><ToastClose /></Toast>", "A toast notification component", "feedback", ["toast", "notification", "message", "popup", "temporary"], none, none, none⟩),
  ("separator", ⟨"separator", "Separator", "@radix-ui/react-separator", "import \x7b Separator \x7d from \"@/components/ui/separator\"", "<Separator />", "A visual separator component", "feedback", ["separator", "divider", "line", "border", "split"], none, none, none⟩),
  ("label", ⟨"label", "Label", "@radix-ui/react-label", "import \x7b Label \x7d from \"@/components/ui/label\"", "<Label htmlFor=\"email\">Email</Label>", "A form label component with accessibility support", "form", ["label", "form", "text", "field", "accessibility"], none, none, none⟩),
  ("form", ⟨"form", "Form", "react-hook-form", "import \x7b Form, FormControl, FormField, FormItem, FormLabel, FormMessage \x7d from \"@/components/ui/form\"", "<Form \x7b...form\x7d><FormField control=\x7bform.control\x7d name=\"username\" render=\x7b(\x7b field \x7d) => (<FormItem><FormLabel>Username</FormLabel><FormControl><Input \x7b...field\x7d /></FormControl></FormItem>)\x7d /></Form>", "Form component with React Hook Form integration", "form", ["form", "validation", "react-hook-form", "input", "submit"], none, none, none⟩),
  ("switch", ⟨"switch", "Switch", "@radix-ui/react-switch", "import \x7b Switch \x7d from \"@/components/ui/switch\"", "<Switch checked=\x7benabled\x7d onCheckedChange=\x7bsetEnabled\x7d />", "A toggle switch component for binary choices", "form", ["switch", "toggle", "boolean", "on", "off"], none, none, none⟩),
  ("slider", ⟨"slider", "Slider", "@radix-ui/react-slider", "import \x7b Slider \x7d from \"@/components/ui/slider\"", "<Slider defaultValue=\x7b[50]\x7d max=\x7b100\x7d step=\x7b1\x7d />", "A slider input component for selecting values from a range", "form", ["slider", "range", "input", "value", "adjust"], none, none, none⟩),
  ("combobox", ⟨"combobox", "Combobox", "@radix-ui/react-combobox", "import \x7b Combobox \x7d from \"@/components/ui/combobox\"", "<Combobox value=\x7bvalue\x7d onValueChange=\x7bsetValue\x7d />", "A combobox component with search and autocomplete", "form", ["combobox", "autocomplete", "search", "select", "dropdown"], none, none, none⟩),
  ("toggle", ⟨"toggle", "Toggle", "@radix-ui/react-toggle", "import \x7b Toggle \x7d from \"@/components/ui/toggle\"", "<Toggle aria-label=\"Toggle italic\"><Italic /></Toggle>", "A toggle button component with pressed state", "form", ["toggle", "button", "pressed", "state", "icon"], none, none, none⟩),
  ("toggle-group", ⟨"toggle-group", "Toggle Group", "@radix-ui/react-toggle-group", "import \x7b ToggleGroup, ToggleGroupItem \x7d from \"@/components/ui/toggle-group\"", "<ToggleGroup type=\"single\"><ToggleGroupItem value=\"a\">A</ToggleGroupItem></ToggleGroup>", "A group of toggle buttons for multiple or single selection", "form", ["toggle", "group", "buttons", "selection", "multiple"], none, none, none⟩),
  ("input-otp", ⟨"input-otp", "Input OTP", "@radix-ui/react-input-otp", "import \x7b InputOTP, InputOTPGroup, InputOTPSlot \x7d from \"@/components/ui/input-otp\"", "<InputOTP maxLength=\x7b6\x7d><InputOTPGroup><InputOTPSlot index=\x7b0\x7d /></InputOTPGroup></InputOTP>", "One-time password input component", "form", ["otp", "password", "verification", "code", "security"], none, none, none⟩),
  ("collapsible", ⟨"collapsible", "Collapsible", "@radix-ui/react-collapsible", "import \x7b Collapsible, CollapsibleContent, CollapsibleTrigger \x7d from \"@/components/ui/collapsible\"", "<Collapsible><CollapsibleTrigger>Toggle</CollapsibleTrigger><CollapsibleContent>Content</CollapsibleContent></Collapsible>", "A collapsible container component", "layout", ["collapsible", "collapse", "expand", "toggle", "content"], none, none, none⟩),
  ("resizable", ⟨"resizable", "Resizable", "react-resizable-panels", "import \x7b ResizableHandle, ResizablePanel, ResizablePanelGroup \x7d from \"@/components/ui/resizable\"", "<ResizablePanelGroup direction=\"horizontal\"><ResizablePanel>Panel 1</ResizablePanel><ResizableHandle /><ResizablePanel>Panel 2</ResizablePanel></ResizablePanelGroup>", "Resizable panel layout component", "layout", ["resizable", "panel", "layout", "split", "drag"], none, none, none⟩),
  ("scroll-area", ⟨"scroll-area", "Scroll Area", "@radix-ui/react-scroll-area", "import \x7b ScrollArea \x7d from \"@/components/ui/scroll-area\"", "<ScrollArea className=\"h-72 w-48\"><div>Content</div></ScrollArea>", "A custom styled scrollable area", "layout", ["scroll", "overflow", "scrollbar", "content", "area"], none, none, none⟩),
  ("aspect-ratio", ⟨"aspect-ratio", "Aspect Ratio", "@radix-ui/react-aspect-ratio", "import \x7b AspectRatio \x7d from \"@/components/ui/aspect-ratio\"", "<AspectRatio ratio=\x7b16 / 9\x7d><img src=\"image.jpg\" /></AspectRatio>", "A container that maintains aspect ratio", "layout", ["aspect-ratio", "responsive", "image", "video", "ratio"], none, none, none⟩),
  ("navigation-menu", ⟨"navigation-menu", "Navigation Menu", "@radix-ui/react-navigation-menu", "import \x7b NavigationMenu, NavigationMenuContent, NavigationMenuItem, NavigationMenuLink, NavigationMenuList, NavigationMenuTrigger \x7d from \"@/components/ui/navigation-menu\"", "<NavigationMenu><NavigationMenuList><NavigationMenuItem><NavigationMenuTrigger>Item</NavigationMenuTrigger><NavigationMenuContent>Content</NavigationMenuContent></NavigationMenuItem></NavigationMenuList></NavigationMenu>", "A complex navigation menu with dropdowns", "navigation", ["navigation", "menu", "dropdown", "nav", "header"], none, none, none⟩),
  ("menubar", ⟨"menubar", "Menubar", "@radix-ui/react-menubar", "import \x7b Menubar, MenubarContent, MenubarItem, MenubarMenu, MenubarTrigger \x7d from \"@/components/ui/menubar\"", "<Menubar><MenubarMenu><MenubarTrigger>File</MenubarTrigger><MenubarContent><MenubarItem>New</MenubarItem></MenubarContent></MenubarMenu></Menubar>", "A menubar component like desktop applications", "navigation", ["menubar", "menu", "desktop", "navigation", "toolbar"], none, none, none⟩),
  ("command", ⟨"command", "Command", "cmdk", "import \x7b Command, CommandDialog, CommandEmpty, CommandGroup, CommandInput, CommandItem, CommandList \x7d from \"@/components/ui/command\"", "<Command><CommandInput placeholder=\"Search...\" /><CommandList><CommandGroup><CommandItem>Item</CommandItem></CommandGroup></CommandList></Command>", "A command palette component for keyboard-first navigation", "navigation", ["command", "palette", "search", "keyboard", "cmdk"], none, none, none⟩),
  ("context-menu", ⟨"context-menu", "Context Menu", "@radix-ui/react-context-menu", "import \x7b ContextMenu, ContextMenuContent, ContextMenuItem, ContextMenuTrigger \x7d from \"@/components/ui/context-menu\"", "<ContextMenu><ContextMenuTrigger>Right click</ContextMenuTrigger><ContextMenuContent><ContextMenuItem>Item</ContextMenuItem></ContextMenuContent></ContextMenu>", "A context menu triggered by right-click", "navigation", ["context-menu", "right-click", "menu", "popup", "actions"], none, none, none⟩),
  ("dropdown-menu", ⟨"dropdown-menu", "Dropdown Menu", "@radix-ui/react-dropdown-menu", "import \x7b DropdownMenu, DropdownMenuContent, DropdownMenuItem, DropdownMenuTrigger \x7d from \"@/components/ui/dropdown-menu\"", "<DropdownMenu><DropdownMenuTrigger>Open</DropdownMenuTrigger><DropdownMenuContent><DropdownMenuItem>Item</DropdownMenuItem></DropdownMenuContent></DropdownMenu>", "A dropdown menu component", "navigation", ["dropdown", "menu", "actions", "popup", "select"], none, none, none⟩),
  ("pagination", ⟨"pagination", "Pagination", "@radix-ui/react-pagination", "import \x7b Pagination, PaginationContent, PaginationItem, PaginationLink, PaginationNext, PaginationPrevious \x7d from \"@/components/ui/pagination\"", "<Pagination><PaginationContent><PaginationItem><PaginationPrevious /></PaginationItem></PaginationContent></Pagination>", "A pagination component for navigating pages", "navigation", ["pagination", "pages", "navigation", "next", "previous"], none, none, none⟩),
  ("calendar", ⟨"calendar", "Calendar", "react-day-picker", "import \x7b Calendar \x7d from \"@/components/ui/calendar\"", "<Calendar mode=\"single\" selected=\x7bdate\x7d onSelect=\x7bsetDate\x7d />", "A calendar component for date selection", "data", ["calendar", "date", "picker", "schedule", "time"], none, none, none⟩),
  ("date-picker", ⟨"date-picker", "Date Picker", "react-day-picker", "import \x7b DatePicker \x7d from \"@/components/ui/date-picker\"", "<DatePicker date=\x7bdate\x7d setDate=\x7bsetDate\x7d />", "A date picker component with calendar", "data", ["date", "picker", "calendar", "input", "select"], none, none, none⟩),
  ("hover-card", ⟨"hover-card", "Hover Card", "@radix-ui/react-hover-card", "import \x7b HoverCard, HoverCardContent, HoverCardTrigger \x7d from \"@/components/ui/hover-card\"", "<HoverCard><HoverCardTrigger>Hover</HoverCardTrigger><HoverCardContent>Content</HoverCardContent></HoverCard>", "A card that appears on hover", "data", ["hover", "card", "tooltip", "popup", "preview"], none, none, none⟩),
  ("carousel", ⟨"carousel", "Carousel", "embla-carousel-react", "import \x7b Carousel, CarouselContent, CarouselItem, CarouselNext, CarouselPrevious \x7d from \"@/components/ui/carousel\"", "<Carousel><CarouselContent><CarouselItem>Item</CarouselItem></CarouselContent></Carousel>", "A carousel component for sliding content", "data", ["carousel", "slider", "images", "gallery", "slides"], none, none, none⟩),
  ("tooltip", ⟨"tooltip", "Tooltip", "@radix-ui/react-tooltip", "import \x7b Tooltip, TooltipContent, TooltipProvider, TooltipTrigger \x7d from \"@/components/ui/tooltip\"", "<TooltipProvider><Tooltip><TooltipTrigger>Hover</TooltipTrigger><TooltipContent>Content</TooltipContent></Tooltip></TooltipProvider>", "A tooltip component for hover information", "data", ["tooltip", "hover", "info", "help", "hint"], none, none, none⟩),
  ("sonner", ⟨"sonner", "Sonner", "sonner", "import \x7b toast \x7d from \"sonner\"", "toast(\"Event has been created\")", "An alternative toast notification component", "feedback", ["toast", "notification", "sonner", "alert", "message"], none, none, none⟩),
  ("ai-actions", ⟨"ai-actions", "AI Actions", "shadcn-ai", "import \x7b Actions, Action \x7d from \"@/components/ai/actions\"", "<Actions><Action label=\"Copy\">Copy</Action></Actions>", "Interactive AI action buttons for React chat interfaces with tooltips and shadcn/ui styling", "ai", ["ai", "chat", "actions", "buttons", "interactive"], some "shadcn-ai", some "npx shadcn@latest add https://www.shadcn.io/registry/ai.json", some "https://www.shadcn.io/ai/actions"⟩),
  ("ai-branch", ⟨"ai-branch", "AI Branch", "shadcn-ai", "import \x7b Branch \x7d from \"@/components/ai/branch\"", "<Branch responses=\x7bresponses\x7d onSelect=\x7bhandleSelect\x7d />", "Branch between AI response variations like ChatGPT for exploring multiple answers", "ai", ["ai", "branch", "variations", "chatgpt", "responses"], some "shadcn-ai", some "npx shadcn@latest add https://www.shadcn.io/registry/ai.json", some "https://www.shadcn.io/ai/branch"⟩),
  ("ai-code-block", ⟨"ai-code-block", "AI Code Block", "shadcn-ai", "import \x7b AICodeBlock \x7d from \"@/components/ai/code-block\"", "<AICodeBlock code=\x7bcode\x7d language=\"typescript\" />", "Syntax-highlighted code blocks with copy buttons for AI responses", "ai", ["ai", "code", "syntax", "highlight", "copy"], some "shadcn-ai", some "npx shadcn@latest add https://www.shadcn.io/registry/ai.json", some "https://www.shadcn.io/ai/code-block"⟩),
  ("ai-conversation", ⟨"ai-conversation", "AI Conversation", "shadcn-ai", "import \x7b AIConversation \x7d from \"@/components/ai/conversation\"", "<AIConversation messages=\x7bmessages\x7d />", "Auto-scrolling chat container for smooth AI conversations", "ai", ["ai", "chat", "conversation", "scroll", "streaming"], some "shadcn-ai", some "npx shadcn@latest add https://www.shadcn.io/registry/ai.json", some "https://www.shadcn.io/ai/conversation"⟩),
  ("ai-image", ⟨"ai-image", "AI Image", "shadcn-ai", "import \x7b AIImage \x7d from \"@/components/ai/image\"", "<AIImage src=\x7bimageUrl\x7d alt=\"Generated image\" />", "Display AI-generated images with loading states and error handling", "ai", ["ai", "image", "dalle", "midjourney", "generated"], some "shadcn-ai", some "npx shadcn@latest add https://www.shadcn.io/registry/ai.json", some "https://www.shadcn.io/ai/image"⟩),
  ("ai-inline-citation", ⟨"ai-inline-citation", "AI Inline Citation", "shadcn-ai", "import \x7b AIInlineCitation \x7d from \"@/components/ai/inline-citation\"", "<AIInlineCitation source=\x7bsource\x7d />", "Inline citations with hover previews like Perplexity AI", "ai", ["ai", "citation", "perplexity", "sources", "references"], some "shadcn-ai", some "npx shadcn@latest add https://www.shadcn.io/registry/ai.json", some "https://www.shadcn.io/ai/inline-citation"⟩),
  ("ai-loader", ⟨"ai-loader", "AI Loader", "shadcn-ai", "import \x7b AILoader \x7d from \"@/components/ai/loader\"", "<AILoader />", "Animated loader for AI streaming responses showing AI is thinking", "ai", ["ai", "loader", "streaming", "thinking", "animation"], some "shadcn-ai", some "npx shadcn@latest add https://www.shadcn.io/registry/ai.json", some "https://www.shadcn.io/ai/loader"⟩),
  ("ai-message", ⟨"ai-message", "AI Message", "shadcn-ai", "import \x7b AIMessage \x7d from \"@/components/ai/message\"", "<AIMessage role=\"assistant\" content=\"Hello!\" />", "Chat messages with avatars distinguishing user from AI", "ai", ["ai", "message", "chat", "avatar", "conversation"], some "shadcn-ai", some "npx shadcn@latest add https://www.shadcn.io/registry/ai.json", some "https://www.shadcn.io/ai/message"⟩),
  ("ai-prompt-input", ⟨"ai-prompt-input", "AI Prompt Input", "shadcn-ai", "import \x7b AIPromptInput \x7d from \"@/components/ai/prompt-input\"", "<AIPromptInput onSubmit=\x7bhandleSubmit\x7d />", "ChatGPT-style input with auto-resize and model selector", "ai", ["ai", "input", "prompt", "chatgpt", "textarea"], some "shadcn-ai", some "npx shadcn@latest add https://www.shadcn.io/registry/ai.json", some "https://www.shadcn.io/ai/prompt-input"⟩),
  ("ai-reasoning", ⟨"ai-reasoning", "AI Reasoning", "shadcn-ai", "import \x7b AIReasoning \x7d from \"@/components/ai/reasoning\"", "<AIReasoning content=\x7breasoning\x7d />", "Show AI thinking process like Claude\x27s thinking blocks", "ai", ["ai", "reasoning", "thinking", "claude", "process"], some "shadcn-ai", some "npx shadcn@latest add https://www.shadcn.io/registry/ai.json", some "https://www.shadcn.io/ai/reasoning"⟩),
  ("ai-response", ⟨"ai-response", "AI Response", "shadcn-ai", "import \x7b AIResponse \x7d from \"@/components/ai/response\"", "<AIResponse content=\x7bmarkdown\x7d />", "Markdown renderer optimized for streaming AI responses", "ai", ["ai", "response", "markdown", "streaming", "render"], some "shadcn-ai", some "npx shadcn@latest add https://www.shadcn.io/registry/ai.json", some "https://www.shadcn.io/ai/response"⟩),
  ("ai-sources", ⟨"ai-sources", "AI Sources", "shadcn-ai", "import \x7b AISources \x7d from \"@/components/ai/sources\"", "<AISources sources=\x7bsources\x7d />", "Expandable source citations like Perplexity\x27s used sources", "ai", ["ai", "sources", "citations", "perplexity", "references"], some "shadcn-ai", some "npx shadcn@latest add https://www.shadcn.io/registry/ai.json", some "https://www.shadcn.io/ai/sources"⟩),
  ("ai-suggestion", ⟨"ai-suggestion", "AI Suggestion", "shadcn-ai", "import \x7b AISuggestion \x7d from \"@/components/ai/suggestion\"", "<AISuggestion suggestions=\x7bsuggestions\x7d onSelect=\x7bhandleSelect\x7d />", "Suggestion chips like ChatGPT\x27s follow-up prompts", "ai", ["ai", "suggestions", "chips", "chatgpt", "prompts"], some "shadcn-ai", some "npx shadcn@latest add https://www.shadcn.io/registry/ai.json", some "https://www.shadcn.io/ai/suggestion"⟩),
  ("ai-task", ⟨"ai-task", "AI Task", "shadcn-ai", "import \x7b AITask \x7d from \"@/components/ai/task\"", "<AITask tasks=\x7btasks\x7d />", "Task lists showing AI\x27s work progress like Claude Artifacts", "ai", ["ai", "task", "progress", "claude", "artifacts"], some "shadcn-ai", some "npx shadcn@latest add https://www.shadcn.io/registry/ai.json", some "https://www.shadcn.io/ai/task"⟩),
  ("ai-tool", ⟨"ai-tool", "AI Tool", "shadcn-ai", "import \x7b AITool \x7d from \"@/components/ai/tool\"", "<AITool tool=\x7btoolCall\x7d />", "Display AI function calls like OpenAI\x27s tool use", "ai", ["ai", "tool", "function", "openai", "calls"], some "shadcn-ai", some "npx shadcn@latest add https://www.shadcn.io/registry/ai.json", some "https://www.shadcn.io/ai/tool"⟩),
  ("ai-web-preview", ⟨"ai-web-preview", "AI Web Preview", "shadcn-ai", "import \x7b AIWebPreview \x7d from \"@/components/ai/web-preview\"", "<AIWebPreview url=\x7bgeneratedUrl\x7d />", "Preview AI-generated websites like v0.dev\x27s live viewer", "ai", ["ai", "preview", "website", "v0", "iframe"], some "shadcn-ai", some "npx shadcn@latest add https://www.shadcn.io/registry/ai.json", some "https://www.shadcn.io/ai/web-preview"⟩),
  ("glow-button", ⟨"glow-button", "Glow Button", "shadcn-button", "import \x7b GlowButton \x7d from \"@/components/button/glow-button\"", "<GlowButton>Click me</GlowButton>", "Button with animated glow effect and neon styling", "advanced-button", ["button", "glow", "neon", "animated", "effect"], some "shadcn-button", none, some "https://www.shadcn.io/button/glow-button"⟩),
  ("shimmer-button", ⟨"shimmer-button", "Shimmer Button", "shadcn-button", "import \x7b ShimmerButton \x7d from \"@/components/button/shimmer-button\"", "<ShimmerButton>Click me</ShimmerButton>", "Button with shimmer animation effect", "advanced-button", ["button", "shimmer", "shine", "animated", "effect"], some "shadcn-button", none, some "https://www.shadcn.io/button/shimmer-button"⟩),
  ("magnetic-button", ⟨"magnetic-button", "Magnetic Button", "shadcn-button", "import \x7b MagneticButton \x7d from \"@/components/button/magnetic-button\"", "<MagneticButton>Click me</MagneticButton>", "Button with magnetic hover effect that follows cursor", "advanced-button", ["button", "magnetic", "hover", "cursor", "interactive"], some "shadcn-button", none, some "https://www.shadcn.io/button/magnetic-button"⟩),
  ("pulse-button", ⟨"pulse-button", "Pulse Button", "shadcn-button", "import \x7b PulseButton \x7d from \"@/components/button/pulse-button\"", "<PulseButton>Click me</PulseButton>", "Button with pulsing animation effect", "advanced-button", ["button", "pulse", "animation", "heartbeat", "effect"], some "shadcn-button", none, some "https://www.shadcn.io/button/pulse-button"⟩),
  ("gradient-button", ⟨"gradient-button", "Gradient Button", "shadcn-button", "import \x7b GradientButton \x7d from \"@/components/button/gradient-button\"", "<GradientButton>Click me</GradientButton>", "Button with animated gradient background", "advanced-button", ["button", "gradient", "colorful", "animated", "background"], some "shadcn-button", none, some "https://www.shadcn.io/button/gradient-button"⟩),
  ("neon-button", ⟨"neon-button", "Neon Button", "shadcn-button", "import \x7b NeonButton \x7d from \"@/components/button/neon-button\"", "<NeonButton>Click me</NeonButton>", "Button with neon glow effect", "advanced-button", ["button", "neon", "glow", "cyberpunk", "effect"], some "shadcn-button", none, some "https://www.shadcn.io/button/neon-button"⟩),
  ("shine-button", ⟨"shine-button", "Shine Button", "shadcn-button", "import \x7b ShineButton \x7d from \"@/components/button/shine-button\"", "<ShineButton>Click me</ShineButton>", "Button with shine sweep animation", "advanced-button", ["button", "shine", "sweep", "animated", "effect"], some "shadcn-button", none, some "https://www.shadcn.io/button/shine-button"⟩),
  ("copy-button", ⟨"copy-button", "Copy Button", "shadcn-button", "import \x7b CopyButton \x7d from \"@/components/button/copy-button\"", "<CopyButton text=\"Copy this\" />", "Button for copying to clipboard with visual feedback", "advanced-button", ["button", "copy", "clipboard", "feedback", "utility"], some "shadcn-button", none, some "https://www.shadcn.io/button/copy"⟩),
  ("expanding-button", ⟨"expanding-button", "Expanding Button", "shadcn-button", "import \x7b ExpandingButton \x7d from \"@/components/button/expanding-button\"", "<ExpandingButton>Click me</ExpandingButton>", "Button that expands on hover", "advanced-button", ["button", "expand", "hover", "animated", "growth"], some "shadcn-button", none, some "https://www.shadcn.io/button/expanding-button"⟩),
  ("tilt-button", ⟨"tilt-button", "Tilt Button", "shadcn-button", "import \x7b TiltButton \x7d from \"@/components/button/tilt-button\"", "<TiltButton>Click me</TiltButton>", "Button with 3D tilt effect on hover", "advanced-button", ["button", "tilt", "3d", "hover", "perspective"], some "shadcn-button", none, some "https://www.shadcn.io/button/tilt-button"⟩),
  ("gradient-text", ⟨"gradient-text", "Gradient Text", "shadcn-text", "import \x7b GradientText \x7d from \"@/components/text/gradient-text\"", "<GradientText>Beautiful Text</GradientText>", "Text with smooth flowing gradient colors", "text", ["text", "gradient", "animated", "colorful", "typography"], some "shadcn-text", none, some "https://www.shadcn.io/text/gradient-text"⟩),
  ("typing-text", ⟨"typing-text", "Typing Text", "shadcn-text", "import \x7b TypingText \x7d from \"@/components/text/typing-text\"", "<TypingText text=\"Hello World\" />", "Typewriter effect with realistic typing animation", "text", ["text", "typing", "typewriter", "animated", "effect"], some "shadcn-text", none, some "https://www.shadcn.io/text/typing-text"⟩),
  ("shimmering-text", ⟨"shimmering-text", "Shimmering Text", "shadcn-text", "import \x7b ShimmeringText \x7d from \"@/components/text/shimmering-text\"", "<ShimmeringText>Shimmer Text</ShimmeringText>", "Text with smooth shimmer wave animation", "text", ["text", "shimmer", "wave", "animated", "effect"], some "shadcn-text", none, some "https://www.shadcn.io/text/shimmering-text"⟩),
  ("counting-number", ⟨"counting-number", "Counting Number", "shadcn-text", "import \x7b CountingNumber \x7d from \"@/components/text/counting-number\"", "<CountingNumber value=\x7b1000\x7d />", "Animated counting number with spring animations", "text", ["text", "number", "counting", "animated", "spring"], some "shadcn-text", none, some "https://www.shadcn.io/text/counting-number"⟩),
  ("sliding-number", ⟨"sliding-number", "Sliding Number", "shadcn-text", "import \x7b SlidingNumber \x7d from \"@/components/text/sliding-number\"", "<SlidingNumber value=\x7b1234\x7d />", "Number with digit-by-digit sliding animations", "text", ["text", "number", "sliding", "animated", "counter"], some "shadcn-text", none, some "https://www.shadcn.io/text/sliding-number"⟩),
  ("rolling-text", ⟨"rolling-text", "Rolling Text", "shadcn-text", "import \x7b RollingText \x7d from \"@/components/text/rolling-text\"", "<RollingText text=\"Rolling\" />", "3D rolling text with character reveals", "text", ["text", "rolling", "3d", "animated", "reveal"], some "shadcn-text", none, some "https://www.shadcn.io/text/rolling-text"⟩),
  ("rotating-text", ⟨"rotating-text", "Rotating Text", "shadcn-text", "import \x7b RotatingText \x7d from \"@/components/text/rotating-text\"", "<RotatingText words=\x7b[\"Hello\", \"World\"]\x7d />", "Text with smooth vertical rotation transitions", "text", ["text", "rotating", "animated", "transition", "cycle"], some "shadcn-text", none, some "https://www.shadcn.io/text/rotating-text"⟩),
  ("splitting-text", ⟨"splitting-text", "Splitting Text", "shadcn-text", "import \x7b SplittingText \x7d from \"@/components/text/splitting-text\"", "<SplittingText text=\"Split Text\" />", "Text with staggered character, word, or line reveals", "text", ["text", "splitting", "stagger", "animated", "reveal"], some "shadcn-text", none, some "https://www.shadcn.io/text/splitting-text"⟩),
  ("highlight-text", ⟨"highlight-text", "Highlight Text", "shadcn-text", "import \x7b HighlightText \x7d from \"@/components/text/highlight-text\"", "<HighlightText>Highlighted Text</HighlightText>", "Text with smooth expanding background highlights", "text", ["text", "highlight", "background", "animated", "emphasis"], some "shadcn-text", none, some "https://www.shadcn.io/text/highlight-text"⟩),
  ("writing-text", ⟨"writing-text", "Writing Text", "shadcn-text", "import \x7b WritingText \x7d from \"@/components/text/writing-text\"", "<WritingText text=\"Writing Text\" />", "Text with word-by-word reveal animation", "text", ["text", "writing", "reveal", "animated", "progressive"], some "shadcn-text", none, some "https://www.shadcn.io/text/writing-text"⟩)
]

/-- The alias table inside `findComponent`. -/
def ALIASES : List (String × String) := [
  ("btn", "button"),
  ("text", "input"),
  ("textfield", "input"),
  ("text area", "textarea"),
  ("text-area", "textarea"),
  ("dropdown", "select"),
  ("check", "checkbox"),
  ("check box", "checkbox"),
  ("radio button", "radio-group"),
  ("radiobutton", "radio-group"),
  ("container", "card"),
  ("panel", "card"),
  ("box", "card"),
  ("drawer", "sheet"),
  ("sidebar", "sheet"),
  ("modal", "dialog"),
  ("tooltip", "popover"),
  ("menu", "tabs"),
  ("nav", "tabs"),
  ("collapse", "accordion"),
  ("expand", "accordion"),
  ("navigation", "breadcrumb"),
  ("path", "breadcrumb"),
  ("data", "table"),
  ("grid", "table"),
  ("label", "badge"),
  ("tag", "badge"),
  ("status", "badge"),
  ("profile", "avatar"),
  ("user", "avatar"),
  ("image", "avatar"),
  ("loading", "progress"),
  ("percent", "progress"),
  ("bar", "progress"),
  ("wait", "skeleton"),
  ("placeholder", "skeleton"),
  ("shimmer", "skeleton"),
  ("notification", "alert"),
  ("message", "alert"),
  ("warning", "alert"),
  ("info", "alert"),
  ("popup", "toast"),
  ("temporary", "toast"),
  ("divider", "separator"),
  ("line", "separator"),
  ("border", "separator")
]

/-- The visual pattern table (`VISUAL_PATTERNS` in component-matcher),
    insertion-ordered. Field order: keywords, components, priority. -/
def VISUAL_PATTERNS : List (String × VisualPattern) := [
  ("hero", ⟨["hero", "banner", "jumbotron", "large heading", "main heading", "hero section", "landing header", "above the fold", "headline"], ["card", "button", "gradient-text", "glow-button", "gradient-button"], 10⟩),
  ("navigation", ⟨["navigation", "navbar", "nav bar", "menu", "header", "nav links", "top menu", "navigation bar", "site navigation", "main nav"], ["navigation-menu", "menubar", "tabs", "breadcrumb", "dropdown-menu"], 9⟩),
  ("features", ⟨["features", "feature grid", "benefits", "three columns", "3 columns", "icon grid", "feature cards", "feature list", "key features", "highlights"], ["card", "badge", "avatar", "separator"], 8⟩),
  ("form", ⟨["form", "input", "contact form", "signup", "sign up", "login", "text field", "input field", "form field", "contact", "subscribe"], ["form", "input", "textarea", "button", "select", "checkbox", "label"], 8⟩),
  ("pricing", ⟨["pricing", "plans", "tiers", "subscription", "price table", "pricing table", "pricing cards", "plan options", "packages"], ["card", "badge", "button", "separator", "switch", "toggle"], 7⟩),
  ("testimonials", ⟨["testimonials", "reviews", "quotes", "feedback", "customer stories", "testimonial", "review", "customer feedback", "user reviews", "ratings"], ["card", "avatar", "carousel", "badge"], 7⟩),
  ("cta", ⟨["call to action", "cta", "sign up", "get started", "try now", "action button", "primary button", "start free trial", "download"], ["button", "glow-button", "gradient-button", "shimmer-button"], 9⟩),
  ("stats", ⟨["statistics", "stats", "numbers", "metrics", "counter", "achievements", "key numbers", "data", "analytics"], ["card", "counting-number", "sliding-number", "badge", "progress"], 6⟩),
  ("gallery", ⟨["gallery", "images", "portfolio", "showcase", "image grid", "photo gallery", "image showcase", "work samples"], ["carousel", "card", "aspect-ratio", "dialog"], 6⟩),
  ("faq", ⟨["faq", "questions", "accordion", "collapsible", "q&a", "frequently asked", "help", "support"], ["accordion", "collapsible", "card"], 5⟩),
  ("footer", ⟨["footer", "site footer", "bottom", "copyright", "links footer", "footer links", "social links"], ["separator", "button", "navigation-menu"], 4⟩),
  ("table", ⟨["table", "data table", "grid", "rows", "columns", "comparison table", "feature comparison"], ["table", "badge", "checkbox"], 6⟩),
  ("tabs", ⟨["tabs", "tabbed", "tab navigation", "tab panel", "switch between", "toggle views"], ["tabs", "toggle-group"], 7⟩)
]


/-- `Object.values(COMPONENT_LIBRARY)`, in insertion order. -/
def getAllComponents : List ComponentInfo := COMPONENT_LIBRARY.map (·.2)

/-- `findComponent` (component-finder): direct key match, then alias-table
    lookup (whose result is returned even when the alias target is not a
    table key, mirroring `return COMPONENT_LIBRARY[aliases[q]]`), then the
    first component whose tag/query pair is in the substring relation, then
    the first table entry whose key/query pair is in the substring relation. -/
def findComponent (query : String) : Option ComponentInfo :=
  let normalizedQuery := normalize query
  match lookupL normalizedQuery COMPONENT_LIBRARY with
  | some c => some c
  | none =>
    match lookupL normalizedQuery ALIASES with
    | some target => lookupL target COMPONENT_LIBRARY
    | none =>
      match getAllComponents.find? (fun c =>
          c.tags.any (fun tag => containsS tag normalizedQuery || containsS normalizedQuery tag)) with
      | some c => some c
      | none =>
        (COMPONENT_LIBRARY.find? (fun p =>
            containsS p.1 normalizedQuery || containsS normalizedQuery p.1)).map (·.2)

/-- `getComponentsByCategory` (component-finder). -/
def getComponentsByCategory (category : String) : List ComponentInfo :=
  getAllComponents.filter (fun component => decide (component.category = category))

/-- `getComponentByName` (component-finder): exact table-key lookup. -/
def getComponentByName (componentName : String) : Option ComponentInfo :=
  lookupL componentName COMPONENT_LIBRARY

/-- The per-component score of `searchComponentsRanked`: a first-match tier
    ladder followed by the multi-word description bonus. -/
def scoreFor (component : ComponentInfo) (normalizedQuery : String) : Nat :=
  let score : Nat :=
    if component.componentName = normalizedQuery then 100
    else if lowerS component.displayName = normalizedQuery then 90
    else if startsWithS component.componentName normalizedQuery then 80
    else if startsWithS (lowerS component.displayName) normalizedQuery then 70
    else if containsS component.componentName normalizedQuery then 60
    else if containsS (lowerS component.displayName) normalizedQuery then 50
    else if component.tags.any (fun tag => decide (tag = normalizedQuery)) then 40
    else if component.tags.any (fun tag => containsS tag normalizedQuery) then 30
    else if containsS (lowerS component.description) normalizedQuery then 20
    else 0
  let queryWords := splitWs normalizedQuery
  if queryWords.length > 1 then
    let descriptionLower := lowerS component.description
    score + 5 * (queryWords.filter (fun word => containsS descriptionLower word)).length
  else score

/-- The candidate pool of `searchComponentsRanked`: all components, or the
    category-filtered components when a category is supplied. -/
def componentsToSearch (category : Option String) : List ComponentInfo :=
  match category with
  | some cat => getAllComponents.filter (fun c => decide (c.category = cat))
  | none => getAllComponents

/-- The scored list of `searchComponentsRanked`: every candidate with a
    non-zero score, paired with its score, in table order. -/
def scoredFor (normalizedQuery : String) (comps : List ComponentInfo) :
    List (ComponentInfo × Nat) :=
  comps.filterMap (fun component =>
    if scoreFor component normalizedQuery > 0 then
      some (component, scoreFor component normalizedQuery)
    else none)

/-- The comparison handed to `sort((a, b) => b.score - a.score)`. -/
def rankedLe (a b : ComponentInfo × Nat) : Bool := decide (b.2 ≤ a.2)

/-- `searchComponentsRanked` (component-finder): score, drop zero scores,
    stable-sort descending by score, truncate to `limit`. -/
def searchComponentsRanked (query : String) (category : Option String) (limit : Nat) :
    List ComponentInfo :=
  let normalizedQuery := normalize query
  let scoredComponents := scoredFor normalizedQuery (componentsToSearch category)
  ((scoredComponents.mergeSort rankedLe).take limit).map (·.1)

/-- A row of `listComponents`'s output. -/
structure ComponentSummary where
  name : String
  displayName : String
  description : String
  category : String
  library : Option String
deriving DecidableEq

/-- `listComponents`'s request shape (component-service). -/
structure ListComponentsRequest where
  query : String
  category : Option String
  limit : Option Nat

/-- The summary projection applied by `listComponents`. -/
def toSummary (component : ComponentInfo) : ComponentSummary :=
  ⟨component.componentName, component.displayName, component.description,
    component.category, component.library⟩

/-- `listComponents` (component-service): the "all components" path for an
    empty or "all" query (with optional positive limit), otherwise ranked
    search with `limit || 100` (a JavaScript-falsy limit of 0 becomes 100). -/
def listComponents (request : ListComponentsRequest) : List ComponentSummary :=
  let comps :=
    if decide (request.query = "") || decide (lowerS request.query = "all") then
      let base :=
        match request.category with
        | some cat => getComponentsByCategory cat
        | none => getAllComponents
      match request.limit with
      | some l => if l > 0 then base.take l else base
      | none => base
    else
      searchComponentsRanked request.query request.category
        (match request.limit with
         | some l => if l = 0 then 100 else l
         | none => 100)
  comps.map toSummary

/-- The result shape of `matchComponentsFromAnalysis`. -/
structure MatchResult where
  components : List ComponentInfo
  installations : List String
deriving DecidableEq

/-- `Set.prototype.add` on an insertion-ordered, duplicate-free list. -/
def setAdd (set : List String) (comp : String) : List String :=
  if set.any (fun x => decide (x = comp)) then set else set ++ [comp]

/-- `priorities[comp] = Math.max(priorities[comp] || 0, priority)` on an
    insertion-ordered key/value list. -/
def prioUpdate : List (String × Nat) → String → Nat → List (String × Nat)
  | [], comp, priority => [(comp, Nat.max 0 priority)]
  | (k, v) :: rest, comp, priority =>
    if k = comp then (k, Nat.max v priority) :: rest
    else (k, v) :: prioUpdate rest comp priority

/-- Record one matched pattern: add all its components to the set and raise
    each component's stored priority to at least the pattern's priority. -/
def addPatternComponents (acc : List String × List (String × Nat))
    (pattern : VisualPattern) : List String × List (String × Nat) :=
  pattern.components.foldl
    (fun a comp => (setAdd a.1 comp, prioUpdate a.2 comp pattern.priority)) acc

/-- Does at least one keyword of the pattern occur in the lowercased analysis?
    (The source's inner loop breaks at the first keyword hit, which only
    affects logging; all the pattern's components are added either way.) -/
def patternMatched (lowerAnalysis : String) (pattern : VisualPattern) : Bool :=
  pattern.keywords.any (fun keyword => containsS lowerAnalysis keyword)

/-- The pattern-matching loop of `matchComponentsFromAnalysis`. -/
def collectMatches (lowerAnalysis : String) :
    List (String × VisualPattern) → (List String × List (String × Nat)) →
    List String × List (String × Nat)
  | [], acc => acc
  | (_, pattern) :: rest, acc =>
    collectMatches lowerAnalysis rest
      (if patternMatched lowerAnalysis pattern then addPatternComponents acc pattern else acc)

/-- The fixed fallback component set used when no pattern matches. -/
def DEFAULT_COMPONENTS : List String := ["button", "card", "input"]

/-- The comparison handed to the matcher's
    `sort((a, b) => (priorities[b.componentName] || 0) - (priorities[a.componentName] || 0))`. -/
def prioLe (priorities : List (String × Nat)) (a b : ComponentInfo) : Bool :=
  decide ((lookupL b.componentName priorities).getD 0 ≤
    (lookupL a.componentName priorities).getD 0)

/-- `matchComponentsFromAnalysis` (component-matcher). -/
def matchComponentsFromAnalysis (analysis : String) : MatchResult :=
  let lowerAnalysis := lowerS analysis
  let collected := collectMatches lowerAnalysis VISUAL_PATTERNS ([], [])
  let withDefault :=
    if collected.1.isEmpty then
      (DEFAULT_COMPONENTS, DEFAULT_COMPONENTS.map (fun comp => (comp, 5)))
    else collected
  let components := withDefault.1.filterMap getComponentByName
  let sortedComponents := components.mergeSort (prioLe withDefault.2)
  let installations := sortedComponents.map (fun c =>
    match c.installCommand with
    | some cmd => cmd
    | none => "Install command for \x27" ++ c.componentName ++
        "\x27 component not found. Try installing it by yourself.")
  ⟨sortedComponents, installations⟩

/-- `TemplateAnswers` (template-conversation). -/
structure TemplateAnswers where
  purpose : String
  targetAudience : String
  desiredAction : String
  style : String
deriving DecidableEq

/-- `TemplateSection` (template-conversation). Field order: name, priority,
    tailarkComponent, description. -/
structure TemplateSection where
  name : String
  priority : Nat
  tailarkComponent : String
  description : String
deriving DecidableEq

/-- The purpose-dependent arm of `selectSectionsForTemplate`'s switch. -/
def purposeSections (purpose : String) : List TemplateSection :=
  if purpose = "SaaS Product" then
    [⟨"Features", 9, "features", "Product features and benefits"⟩,
     ⟨"Pricing", 8, "pricing", "Pricing plans and tiers"⟩,
     ⟨"Testimonials", 7, "testimonials", "Customer testimonials and reviews"⟩]
  else if purpose = "Mobile App" then
    [⟨"Features", 9, "features", "App features and functionality"⟩,
     ⟨"Stats", 8, "stats", "Download numbers and user stats"⟩,
     ⟨"Testimonials", 7, "testimonials", "User reviews and ratings"⟩]
  else if purpose = "Ecommerce Product" then
    [⟨"Features", 9, "features", "Product features and benefits"⟩,
     ⟨"Testimonials", 8, "testimonials", "Customer reviews"⟩,
     ⟨"Content", 7, "content", "Product details and specifications"⟩]
  else if purpose = "Personal Portfolio" then
    [⟨"Content", 9, "content", "About section and experience"⟩,
     ⟨"Testimonials", 8, "testimonials", "Client testimonials"⟩,
     ⟨"Team", 7, "team", "Personal information"⟩]
  else if purpose = "Event" then
    [⟨"Content", 9, "content", "Event details and agenda"⟩,
     ⟨"Stats", 8, "stats", "Event statistics and highlights"⟩,
     ⟨"Testimonials", 7, "testimonials", "Previous event feedback"⟩]
  else []

/-- The desired-action arm of `selectSectionsForTemplate`'s switch. -/
def actionSections (desiredAction : String) : List TemplateSection :=
  if desiredAction = "Sign up" then
    [⟨"Call to Action", 9, "call-to-action", "Sign up form and benefits"⟩]
  else if desiredAction = "Request a demo" then
    [⟨"Call to Action", 9, "call-to-action", "Demo request form"⟩]
  else if desiredAction = "Buy" then
    [⟨"Pricing", 9, "pricing", "Product pricing and purchase options"⟩]
  else if desiredAction = "Subscribe to newsletter" then
    [⟨"Call to Action", 8, "call-to-action", "Newsletter signup form"⟩]
  else if desiredAction = "Contact you" then
    [⟨"Call to Action", 8, "call-to-action", "Contact form and information"⟩]
  else []

/-- `selectSectionsForTemplate` (template-conversation): hero, the
    purpose/audience/action-dependent sections, footer, stable-sorted by
    priority descending. -/
def selectSectionsForTemplate (answers : TemplateAnswers) : List TemplateSection :=
  let sections :=
    [⟨"Hero Section", 10, "hero", "Main landing section with headline and CTA"⟩] ++
    purposeSections answers.purpose ++
    (if answers.targetAudience = "Investors" then
      [⟨"Stats", 8, "stats", "Key metrics and growth numbers"⟩,
       ⟨"Team", 7, "team", "Founding team and advisors"⟩]
     else []) ++
    actionSections answers.desiredAction ++
    [⟨"Footer", 1, "footer", "Site footer with links and information"⟩]
  sections.mergeSort (fun a b => decide (b.priority ≤ a.priority))

/-- One entry of the recommended-sections block of the rendered template. -/
def renderTemplateSection (indexed : Nat × TemplateSection) : String :=
  "\n### " ++ toString (indexed.1 + 1) ++ ". " ++ indexed.2.name ++
  "\n- **Component**: `@tailark/" ++ indexed.2.tailarkComponent ++ "`" ++
  "\n- **Description**: " ++ indexed.2.description ++
  "\n- **Priority**: " ++ toString indexed.2.priority ++ "/10\n"

/-- `generateTemplateFromAnswers` (template-conversation): the rendered
    terminal markdown template. -/
def generateTemplateFromAnswers (answers : TemplateAnswers) : String :=
  let sections := selectSectionsForTemplate answers
  "\n# 🎨 Custom Landing Page Template\n\nBased on your requirements, here\x27s your personalized template:\n\n## 📋 Template Configuration\n\n- **Purpose**: " ++
  answers.purpose ++
  "\n- **Target Audience**: " ++ answers.targetAudience ++
  "\n- **Desired Action**: " ++ answers.desiredAction ++
  "\n- **Style**: " ++ answers.style ++
  "\n\n## 🏗️ Recommended Sections\n\n" ++
  String.join (sections.enum.map renderTemplateSection) ++
  "\n\n## 🚀 Installation Commands\n\n```bash\n# Install all recommended components\n" ++
  String.intercalate "\n"
    (sections.map (fun sec => "npx shadcn@latest add @tailark/" ++ sec.tailarkComponent)) ++
  "\n```\n\n## 📁 File Structure\n\n```\nsrc/\n├── components/\n│   ├── sections/\n│   │   ├── hero.tsx\n│   │   ├── features.tsx\n│   │   ├── pricing.tsx\n│   │   └── footer.tsx\n│   └── ui/\n│       └── (shadcn components)\n└── app/\n    └── page.tsx\n```\n\n## 💡 Next Steps\n\n1. Run the installation commands above\n2. Import the components in your main page\n3. Customize the content for your brand\n4. Add your own styling and branding\n5. Test the page on different devices\n\n## 🎯 Optimization Tips\n\n- **Hero Section**: Make it compelling and action-oriented\n- **Features**: Highlight your unique value proposition\n- **Pricing**: Be transparent and competitive\n- **Testimonials**: Build trust with social proof\n- **CTA**: Make it prominent and clear\n\n## 🔧 Customization\n\nEach section can be customized with:\n- Your brand colors and fonts\n- Custom content and copy\n- Additional animations and interactions\n- Mobile-responsive adjustments\n  "

/-- One conversation question (`CONVERSATION_QUESTIONS` entry). -/
structure QuestionSpec where
  question : String
  options : List String
  key : String
deriving DecidableEq

/-- `CONVERSATION_QUESTIONS` (template-conversation), keyed by step 1..4. -/
def CONVERSATION_QUESTIONS : List (Nat × QuestionSpec) := [
  (1, ⟨"What is this landing page for?",
    ["SaaS Product", "Mobile App", "Ecommerce Product", "Personal Portfolio", "Event", "Other"],
    "purpose"⟩),
  (2, ⟨"Who is your target audience?",
    ["Customers", "Investors", "Partners", "Job Applicants", "General Users"],
    "targetAudience"⟩),
  (3, ⟨"What action do you want visitors to take?",
    ["Sign up", "Request a demo", "Buy", "Subscribe to newsletter", "Contact you"],
    "desiredAction"⟩),
  (4, ⟨"What style or tone do you prefer?",
    ["Professional", "Friendly", "Creative", "Minimalist"],
    "style"⟩)]

/-- `ConversationState` (template-conversation). -/
structure ConversationState where
  currentStep : Nat
  totalSteps : Nat
  answers : List (String × String)
  nextQuestion : Option String
deriving DecidableEq

/-- The two shapes of `processConversationStep`'s result
    (`type: 'question' | 'template'` with the matching `data`). -/
inductive StepResult where
  | question (state : ConversationState)
  | template (text : String)
deriving DecidableEq

/-- Is the result a next-question response? -/
def StepResult.isQuestion : StepResult → Bool
  | .question _ => true
  | .template _ => false

/-- JavaScript object assignment `answers[key] = value` on an
    insertion-ordered key/value list. -/
def setAnswer (answers : List (String × String)) (key value : String) :
    List (String × String) :=
  if (lookupL key answers).isSome then
    answers.map (fun p => if p.1 = key then (key, value) else p)
  else answers ++ [(key, value)]

/-- `processConversationStep` (template-conversation): store the answer under
    the current step's key (when the step has a question), then either render
    the template (step ≥ 4) or advance to the next question. -/
def processConversationStep (conversationState : ConversationState)
    (userAnswer : String) : StepResult :=
  let currentStep := conversationState.currentStep
  let answers :=
    match lookupL currentStep CONVERSATION_QUESTIONS with
    | some q => setAnswer conversationState.answers q.key userAnswer
    | none => conversationState.answers
  if currentStep ≥ 4 then
    .template (generateTemplateFromAnswers
      ⟨(lookupL "purpose" answers).getD "", (lookupL "targetAudience" answers).getD "",
       (lookupL "desiredAction" answers).getD "", (lookupL "style" answers).getD ""⟩)
  else
    .question ⟨currentStep + 1, 4, answers,
      (lookupL (currentStep + 1) CONVERSATION_QUESTIONS).map (·.question)⟩

/-! Spec-side definitions, written from the spec's wording, used to compare
    the source behaviour against the claims. -/

/-- The spec's strict tier ladder, as an ordered list of (condition, points). -/
def tierRules (c : ComponentInfo) (q : String) : List (Bool × Nat) :=
  [(decide (c.componentName = q), 100),
   (decide (lowerS c.displayName = q), 90),
   (startsWithS c.componentName q, 80),
   (startsWithS (lowerS c.displayName) q, 70),
   (containsS c.componentName q, 60),
   (containsS (lowerS c.displayName) q, 50),
   (c.tags.any (fun tag => decide (tag = q)), 40),
   (c.tags.any (fun tag => containsS tag q), 30),
   (containsS (lowerS c.description) q, 20)]

/-- Award the points of the first rule whose condition holds, else 0. -/
def firstMatchScore : List (Bool × Nat) → Nat
  | [] => 0
  | (hit, points) :: rest => if hit then points else firstMatchScore rest

/-- The spec's "single tier score by the first matching rule of the ladder". -/
def ladderScore (c : ComponentInfo) (q : String) : Nat :=
  firstMatchScore (tierRules c q)

/-- The source's multi-word bonus: 5 per query word (with multiplicity)
    contained in the lowercased description, only for multi-word queries. -/
def wordBonus (c : ComponentInfo) (q : String) : Nat :=
  if (splitWs q).length > 1 then
    5 * ((splitWs q).filter (fun word => containsS (lowerS c.description) word)).length
  else 0

/-- The claim's bonus: 5 per DISTINCT query word contained in the lowercased
    description, only for multi-word queries. -/
def distinctWordBonus (c : ComponentInfo) (q : String) : Nat :=
  if (splitWs q).length > 1 then
    5 * (((splitWs q).dedup).filter (fun word => containsS (lowerS c.description) word)).length
  else 0

/-- Rule 1 of the spec's non-ranked lookup: exact key match. -/
def ruleExactKey (q : String) : Option ComponentInfo := lookupL q COMPONENT_LIBRARY

/-- Rule 2 of the spec's non-ranked lookup, read as "produces a hit" only
    when the alias's target exists in the table. -/
def ruleAlias (q : String) : Option ComponentInfo :=
  (lookupL q ALIASES).bind (fun target => lookupL target COMPONENT_LIBRARY)

/-- Rule 3 of the spec's non-ranked lookup: first component in table order
    with a tag in the substring relation with the query. -/
def ruleTag (q : String) : Option ComponentInfo :=
  getAllComponents.find? (fun c =>
    c.tags.any (fun tag => containsS tag q || containsS q tag))

/-- Rule 4 of the spec's non-ranked lookup: first table entry whose key is in
    the substring relation with the query. -/
def ruleName (q : String) : Option ComponentInfo :=
  (COMPONENT_LIBRARY.find? (fun p => containsS p.1 q || containsS q p.1)).map (·.2)

/-- The claim's reading of `findComponent`: the first rule that produces a
    hit wins, so a failed alias-target lookup falls through to rules 3–4. -/
def findComponentFirstHit (query : String) : Option ComponentInfo :=
  let q := normalize query
  (((ruleExactKey q).orElse (fun _ => ruleAlias q)).orElse
    (fun _ => ruleTag q)).orElse (fun _ => ruleName q)

/-- `findComponent` restated with the alias rule short-circuiting: an alias
    hit returns the table entry of the target even when that entry is absent. -/
def findComponentAliasCut (query : String) : Option ComponentInfo :=
  let q := normalize query
  match ruleExactKey q with
  | some c => some c
  | none =>
    match lookupL q ALIASES with
    | some target => lookupL target COMPONENT_LIBRARY
    | none => (ruleTag q).orElse (fun _ => ruleName q)

/-- The patterns whose keyword list hits the lowercased analysis text. -/
def matchedPatternList (analysis : String) : List VisualPattern :=
  (VISUAL_PATTERNS.map (·.2)).filter (patternMatched (lowerS analysis))

/-- The highest priority among the matched patterns suggesting component key
    `k` (0 when none does). -/
def bestPriority (analysis : String) (k : String) : Nat :=
  (matchedPatternList analysis).foldl
    (fun acc p => if k ∈ p.components then Nat.max acc p.priority else acc) 0

/-- Recursive form of `bestPriority` over a plain pattern list, used to state
    the invariant of the matcher's collection loop. -/
def bestOverP (lowerAnalysis k : String) : List VisualPattern → Nat
  | [] => 0
  | pat :: rest =>
    Nat.max
      (if patternMatched lowerAnalysis pat = true ∧ k ∈ pat.components then pat.priority else 0)
      (bestOverP lowerAnalysis k rest)

/-- The table record stored under "button", for concrete witnesses. -/
def buttonRecord : ComponentInfo :=
  ⟨"button", "Button", "@radix-ui/react-button", "import \x7b Button \x7d from \"@/components/ui/button\"", "<Button variant=\"default\">Click me</Button>", "A versatile button component with multiple variants and sizes", "form", ["button", "click", "action", "primary", "secondary"], none, none, none⟩

/-- The table record stored under "input", for concrete witnesses. -/
def inputRecord : ComponentInfo :=
  ⟨"input", "Input", "@radix-ui/react-input", "import \x7b Input \x7d from \"@/components/ui/input\"", "<Input placeholder=\"Enter text...\" />", "A text input component for user input", "form", ["input", "text", "form", "field", "type"], none, none, none⟩

/-! ## Helper lemmas about the ranking pipeline -/

theorem componentsToSearch_none : componentsToSearch none = getAllComponents := rfl

theorem searchComponentsRanked_def (query : String) (category : Option String)
    (limit : Nat) :
    searchComponentsRanked query category limit =
      (((scoredFor (normalize query) (componentsToSearch category)).mergeSort
        rankedLe).take limit).map (·.1) := rfl

theorem mem_scoredFor {q : String} {comps : List ComponentInfo}
    {p : ComponentInfo × Nat} (hp : p ∈ scoredFor q comps) :
    p.1 ∈ comps ∧ p.2 = scoreFor p.1 q ∧ 0 < p.2 := by
  rcases List.mem_filterMap.1 hp with ⟨c, hc, heq⟩
  by_cases h : scoreFor c q > 0
  · rw [if_pos h] at heq
    cases heq
    exact ⟨hc, rfl, h⟩
  · rw [if_neg h] at heq
    cases heq

theorem dominant_mem_scoredFor {q : String} {comps : List ComponentInfo}
    {x : ComponentInfo} (hx : x ∈ comps) (hpos : 0 < scoreFor x q) :
    (x, scoreFor x q) ∈ scoredFor q comps :=
  List.mem_filterMap.2 ⟨x, hx, by rw [if_pos hpos]⟩

theorem rankedLe_trans :
    ∀ a b c : ComponentInfo × Nat, rankedLe a b → rankedLe b c → rankedLe a c := by
  intro a b c
  simp only [rankedLe, decide_eq_true_eq]
  omega

theorem rankedLe_total : ∀ a b : ComponentInfo × Nat, rankedLe a b || rankedLe b a := by
  intro a b
  simp only [rankedLe, Bool.or_eq_true, decide_eq_true_eq]
  omega

/-- C5: the returned list is sorted by non-increasing score and no returned
    component scores 0. -/
theorem ranked_sorted_and_no_zero :
    ∀ (query : String) (category : Option String) (limit : Nat),
    ((searchComponentsRanked query category limit).Pairwise
      (fun a b => scoreFor b (normalize query) ≤ scoreFor a (normalize query)))
    ∧ ∀ c ∈ searchComponentsRanked query category limit,
        scoreFor c (normalize query) ≠ 0 := by
  intro query category limit
  rw [searchComponentsRanked_def]
  have hsorted := List.sorted_mergeSort rankedLe_trans rankedLe_total
    (scoredFor (normalize query) (componentsToSearch category))
  constructor
  · rw [List.pairwise_map]
    refine List.Pairwise.imp_of_mem ?_ (hsorted.sublist (List.take_sublist _ _))
    intro a b ha hb hab
    have hamem := mem_scoredFor (List.mem_mergeSort.1 (List.mem_of_mem_take ha))
    have hbmem := mem_scoredFor (List.mem_mergeSort.1 (List.mem_of_mem_take hb))
    simp only [rankedLe, decide_eq_true_eq] at hab
    rw [← hamem.2.1, ← hbmem.2.1]
    exact hab
  · intro c hc
    rcases List.mem_map.1 hc with ⟨p, hp, rfl⟩
    have hpmem := mem_scoredFor (List.mem_mergeSort.1 (List.mem_of_mem_take hp))
    rw [← hpmem.2.1]
    omega

/-- If `x` strictly dominates every other candidate's score, it is the first
    result of the unfiltered ranked search for any positive limit. -/
theorem head_searchRanked_of_dominant {query : String} {x : ComponentInfo}
    (hx : x ∈ getAllComponents) (hpos : 0 < scoreFor x (normalize query))
    (hdom : ∀ c ∈ getAllComponents, c ≠ x →
      scoreFor c (normalize query) < scoreFor x (normalize query)) :
    ∀ limit, 1 ≤ limit → (searchComponentsRanked query none limit).head? = some x := by
  intro limit hlim
  rw [searchComponentsRanked_def, componentsToSearch_none]
  have hsx : (x, scoreFor x (normalize query)) ∈
      scoredFor (normalize query) getAllComponents :=
    dominant_mem_scoredFor hx hpos
  have hmem : (x, scoreFor x (normalize query)) ∈
      (scoredFor (normalize query) getAllComponents).mergeSort rankedLe :=
    List.mem_mergeSort.2 hsx
  have hsorted := List.sorted_mergeSort rankedLe_trans rankedLe_total
    (scoredFor (normalize query) getAllComponents)
  cases hsort : (scoredFor (normalize query) getAllComponents).mergeSort rankedLe with
  | nil => rw [hsort] at hmem; cases hmem
  | cons hd tl =>
    rw [hsort] at hmem hsorted
    have hhd := mem_scoredFor (List.mem_mergeSort.1
      (hsort ▸ List.mem_cons_self hd tl))
    have hhd1 : hd.1 = x := by
      by_cases hne : hd.1 = x
      · exact hne
      · exfalso
        have hlt := hdom hd.1 hhd.1 hne
        rcases List.mem_cons.1 hmem with heq | htl
        · exact hne (congrArg Prod.fst heq.symm)
        · have hle := (List.pairwise_cons.1 hsorted).1 _ htl
          simp only [rankedLe, decide_eq_true_eq] at hle
          omega
    obtain ⟨m, rfl⟩ : ∃ m, limit = m + 1 := ⟨limit - 1, by omega⟩
    rw [List.take_succ_cons, List.map_cons, List.head?_cons, hhd1]

/-- For a query without multiple whitespace-separated words the bonus is 0,
    so the score is exactly the tier chain. -/
theorem scoreFor_single {c : ComponentInfo} {q : String}
    (h : ¬ (splitWs q).length > 1) :
    scoreFor c q =
      if c.componentName = q then 100
      else if lowerS c.displayName = q then 90
      else if startsWithS c.componentName q then 80
      else if startsWithS (lowerS c.displayName) q then 70
      else if containsS c.componentName q then 60
      else if containsS (lowerS c.displayName) q then 50
      else if c.tags.any (fun tag => decide (tag = q)) then 40
      else if c.tags.any (fun tag => containsS tag q) then 30
      else if containsS (lowerS c.description) q then 20
      else 0 := by
  simp only [scoreFor]
  rw [if_neg h]

theorem scoreFor_of_name {c : ComponentInfo} {q : String}
    (hname : c.componentName = q) (h : ¬ (splitWs q).length > 1) :
    scoreFor c q = 100 := by
  rw [scoreFor_single h, if_pos hname]

theorem scoreFor_lt_100_of_ne_name {c : ComponentInfo} {q : String}
    (hname : ¬ c.componentName = q) (h : ¬ (splitWs q).length > 1) :
    scoreFor c q < 100 := by
  rw [scoreFor_single h, if_neg hname]
  split_ifs <;> omega

/-- Every table key is already normalized and is a single word. -/
theorem keys_normalized : ∀ p ∈ COMPONENT_LIBRARY,
    normalize p.1 = p.1 ∧ ¬ (splitWs p.1).length > 1 := by decide

/-- The stored component names are pairwise distinct. -/
theorem names_distinct : (getAllComponents.map (·.componentName)).Nodup := by decide

/-- Except under key "radio", the stored name equals the table key. -/
theorem key_eq_name_except_radio : ∀ p ∈ COMPONENT_LIBRARY,
    p.1 ≠ "radio" → p.2.componentName = p.1 := by decide

/-- The record under "radio" is named "radio-group" and scores 80 (name
    prefix tier) for the query "radio". -/
theorem radio_entry : ∀ p ∈ COMPONENT_LIBRARY, p.1 = "radio" →
    p.2.componentName = "radio-group" ∧ scoreFor p.2 "radio" = 80 := by decide

/-- Every component other than the radio record scores below 80 for "radio". -/
theorem radio_others_lt : ∀ c ∈ getAllComponents,
    c.componentName ≠ "radio-group" → scoreFor c "radio" < 80 := by decide

theorem c1_score_cases : ∀ p ∈ COMPONENT_LIBRARY,
    (p.1 ≠ "radio" → scoreFor p.2 (normalize p.1) = 100)
    ∧ (p.1 = "radio" → scoreFor p.2 (normalize p.1) = 80) := by
  intro p hp
  obtain ⟨hnorm, hsingle⟩ := keys_normalized p hp
  rw [hnorm]
  refine ⟨fun hne => scoreFor_of_name (key_eq_name_except_radio p hp hne) hsingle,
    fun heq => ?_⟩
  rw [heq]
  exact (radio_entry p hp heq).2

theorem c1_dominance : ∀ p ∈ COMPONENT_LIBRARY, ∀ c ∈ getAllComponents,
    c ≠ p.2 → scoreFor c (normalize p.1) < scoreFor p.2 (normalize p.1) := by
  intro p hp c hc hne
  obtain ⟨hnorm, hsingle⟩ := keys_normalized p hp
  have hp2 : p.2 ∈ getAllComponents := List.mem_map_of_mem (·.2) hp
  have hname : c.componentName ≠ p.2.componentName := fun heq =>
    hne (List.inj_on_of_nodup_map names_distinct hc hp2 heq)
  rw [hnorm]
  by_cases hk : p.1 = "radio"
  · obtain ⟨hrn, hrs⟩ := radio_entry p hp hk
    rw [hk, hrs]
    exact radio_others_lt c hc (fun h => hname (h.trans hrn.symm))
  · have hkey := key_eq_name_except_radio p hp hk
    rw [scoreFor_of_name hkey hsingle]
    exact scoreFor_lt_100_of_ne_name (fun h => hname (by rw [h, hkey])) hsingle

/-! ## Claim theorems: ranked search on exact keys (C1) -/

/-- C1 (amended): `searchComponentsRanked` on a table key with no category
    filter and a positive limit returns the component stored under that key
    as its first result; its score is 100 for every key except "radio",
    whose record is named "radio-group" and scores 80 via the name-prefix
    tier, and in each case it strictly exceeds every other component's score. -/
theorem c1_exact_key_ranks_first : ∀ p ∈ COMPONENT_LIBRARY, ∀ c ∈ getAllComponents,
    ∀ limit : Nat, 1 ≤ limit →
    (searchComponentsRanked p.1 none limit).head? = some p.2
    ∧ (c ≠ p.2 → scoreFor c (normalize p.1) < scoreFor p.2 (normalize p.1))
    ∧ (p.1 ≠ "radio" → scoreFor p.2 (normalize p.1) = 100)
    ∧ (p.1 = "radio" → scoreFor p.2 (normalize p.1) = 80) := by
  intro p hp c hc limit hlim
  obtain ⟨h100, h80⟩ := c1_score_cases p hp
  have hpos : 0 < scoreFor p.2 (normalize p.1) := by
    by_cases hk : p.1 = "radio"
    · rw [h80 hk]; omega
    · rw [h100 hk]; omega
  exact ⟨head_searchRanked_of_dominant (List.mem_map_of_mem (·.2) hp) hpos
      (c1_dominance p hp) limit hlim,
    fun hne => c1_dominance p hp c hc hne, h100, h80⟩

/-- C1 counterexample: "radio" is a table key whose record scores 80 for the
    query "radio", not the claimed 100. -/
theorem c1_counterexample :
    (lookupL "radio" COMPONENT_LIBRARY).map (fun c => scoreFor c (normalize "radio")) = some 80
    ∧ (lookupL "radio" COMPONENT_LIBRARY).map
        (fun c => scoreFor c (normalize "radio")) ≠ some 100 := by decide

/-- C1 witness: the key "button" with limit 1. -/
theorem c1_witness :
    (searchComponentsRanked "button" none 1).head? = some buttonRecord
    ∧ (inputRecord ≠ buttonRecord →
        scoreFor inputRecord (normalize "button") < scoreFor buttonRecord (normalize "button"))
    ∧ ("button" ≠ "radio" → scoreFor buttonRecord (normalize "button") = 100)
    ∧ ("button" = "radio" → scoreFor buttonRecord (normalize "button") = 80) :=
  c1_exact_key_ranks_first ("button", buttonRecord) (by decide) inputRecord (by decide)
    1 (by decide)

/-! ## Claim theorems: exact-key lookup (C9) and the radio-group anomaly (C10) -/

/-- C9: for every table entry, `findComponent` applied to the key returns the
    stored record (direct match). -/
theorem c9_exact_key_lookup : ∀ p ∈ COMPONENT_LIBRARY,
    findComponent p.1 = some p.2 := by decide

/-- C9 witness: the key "button". -/
theorem c9_witness : findComponent "button" = some buttonRecord :=
  c9_exact_key_lookup ("button", buttonRecord) (by decide)

/-- C10: the record under key "radio" is named "radio-group"; exact-name
    lookup of "radio-group" returns null although listComponents reports a
    component of that name; the aliases "radio button" and "radiobutton" map
    to the non-key "radio-group" and so yield no record. -/
theorem c10_radio_group_mismatch :
    (lookupL "radio" COMPONENT_LIBRARY).map (·.componentName) = some "radio-group"
    ∧ getComponentByName "radio-group" = none
    ∧ (listComponents ⟨"all", none, none⟩).any
        (fun s => decide (s.name = "radio-group")) = true
    ∧ lookupL "radio button" ALIASES = some "radio-group"
    ∧ lookupL "radiobutton" ALIASES = some "radio-group"
    ∧ findComponent "radio button" = none
    ∧ findComponent "radiobutton" = none := by decide

/-! ## Claim theorems: alias agreement (C3) -/

/-- C3 (amended): every alias whose name is not itself a table key and whose
    target is a table key looks up to the same record as its target. -/
theorem c3_alias_lookup_agrees : ∀ p ∈ ALIASES,
    lookupL p.1 COMPONENT_LIBRARY = none →
    (lookupL p.2 COMPONENT_LIBRARY).isSome = true →
    findComponent p.1 = findComponent p.2 := by decide

/-- C3 counterexample: the alias "tooltip" → "popover" disagrees because
    "tooltip" is itself a table key (direct match wins), and the alias
    "radio button" → "radio-group" yields nothing because "radio-group" is
    not a table key, while its target query finds the radio record. -/
theorem c3_counterexample :
    ("tooltip", "popover") ∈ ALIASES
    ∧ findComponent "tooltip" ≠ findComponent "popover"
    ∧ ("radio button", "radio-group") ∈ ALIASES
    ∧ findComponent "radio button" = none
    ∧ (findComponent "radio-group").isSome = true := by decide

/-- C3 witness: the alias "btn" → "button". -/
theorem c3_witness :
    lookupL "btn" COMPONENT_LIBRARY = none
    ∧ (lookupL "button" COMPONENT_LIBRARY).isSome = true
    ∧ findComponent "btn" = findComponent "button" :=
  ⟨by decide, by decide,
    c3_alias_lookup_agrees ("btn", "button") (by decide) (by decide) (by decide)⟩

/-! ## Claim theorems: the scoring formula (C2) -/

/-- The source score is the first-matching-tier ladder plus the multi-word
    bonus that counts query words with multiplicity. -/
theorem scoreFor_eq_ladder_plus_bonus (c : ComponentInfo) (q : String) :
    scoreFor c q = ladderScore c q + wordBonus c q := by
  simp only [scoreFor, ladderScore, tierRules, firstMatchScore, wordBonus,
    decide_eq_true_eq]
  by_cases h : (splitWs q).length > 1
  · rw [if_pos h, if_pos h]
  · rw [if_neg h, if_neg h]
    omega

/-- C2 (amended): for every component of the table and every non-empty
    normalized query, the score is the single first-matching-tier value
    plus, only for multi-word queries, 5 per query word occurrence
    (duplicates counted, not distinct words) found in the description. -/
theorem c2_tier_ladder_and_bonus : ∀ c ∈ getAllComponents, ∀ q : String,
    normalize q ≠ "" →
    scoreFor c (normalize q) =
      ladderScore c (normalize q) + wordBonus c (normalize q) := by
  intro c _ q _
  exact scoreFor_eq_ladder_plus_bonus c (normalize q)

/-- C2 counterexample: for the duplicated two-word query "button button" the
    button record scores 10 (each occurrence of "button" counted), not the 5
    that counting distinct words would give. -/
theorem c2_counterexample :
    (lookupL "button" COMPONENT_LIBRARY).map
      (fun c => scoreFor c (normalize "button button")) = some 10
    ∧ (lookupL "button" COMPONENT_LIBRARY).map
        (fun c => ladderScore c (normalize "button button") +
          distinctWordBonus c (normalize "button button")) = some 5 := by decide

/-- C2 witness: the button record with the query "glow button". -/
theorem c2_witness :
    buttonRecord ∈ getAllComponents ∧ normalize "glow button" ≠ ""
    ∧ scoreFor buttonRecord (normalize "glow button") =
        ladderScore buttonRecord (normalize "glow button") +
          wordBonus buttonRecord (normalize "glow button") :=
  ⟨by decide, by decide,
    c2_tier_ladder_and_bonus buttonRecord (by decide) "glow button" (by decide)⟩

/-! ## Claim theorems: empty queries (C6) -/

/-- With an empty normalized query every component scores exactly 80: the
    name-prefix tier fires because every name starts with "". -/
theorem scoredFor_empty :
    scoredFor "" getAllComponents = getAllComponents.map (fun c => (c, 80)) := by decide

/-- An empty normalized query keeps every component at score 80, so ranked
    search returns the first `limit` components in table order. -/
theorem searchRanked_norm_empty : ∀ q : String, normalize q = "" → ∀ limit : Nat,
    searchComponentsRanked q none limit = getAllComponents.take limit := by
  intro q hq limit
  rw [searchComponentsRanked_def, componentsToSearch_none, hq, scoredFor_empty]
  rw [List.mergeSort_of_sorted (by decide)]
  rw [← List.map_take, List.map_map]
  simp [Function.comp_def]

/-- C6 (amended): an empty normalized query does not return an empty result —
    every component matches the name-prefix tier (score 80) and ranked search
    returns the first `limit` components in table order; the separate
    "return all" path of `listComponents` (query empty or "all") is what
    returns the full table. -/
theorem c6_empty_query :
    (∀ q : String, normalize q = "" → ∀ limit : Nat,
      searchComponentsRanked q none limit = getAllComponents.take limit)
    ∧ listComponents ⟨"", none, none⟩ = getAllComponents.map toSummary
    ∧ listComponents ⟨"all", none, none⟩ = getAllComponents.map toSummary :=
  ⟨searchRanked_norm_empty, rfl, rfl⟩

/-- C6 counterexample: ranked search on the empty and on a whitespace-only
    query returns components, not the claimed empty result. -/
theorem c6_counterexample :
    searchComponentsRanked "" none 10 ≠ [] ∧ searchComponentsRanked " " none 10 ≠ [] := by
  rw [searchRanked_norm_empty "" (by decide) 10, searchRanked_norm_empty " " (by decide) 10]
  exact ⟨by decide, by decide⟩

/-- C6 witness: the whitespace query " " with limit 3. -/
theorem c6_witness :
    normalize " " = "" ∧ searchComponentsRanked " " none 3 = getAllComponents.take 3 :=
  ⟨by decide, c6_empty_query.1 " " (by decide) 3⟩

/-! ## Claim theorems: non-ranked lookup rule order (C7) -/

/-- `findComponent` equals the rule chain in which the alias rule
    short-circuits: an alias hit returns the table entry of its target even
    when that entry is absent. -/
theorem findComponent_eq_aliasCut : ∀ q : String,
    findComponent q = findComponentAliasCut q := by
  intro q
  simp only [findComponent, findComponentAliasCut, ruleExactKey, ruleTag, ruleName]
  cases lookupL (normalize q) COMPONENT_LIBRARY with
  | some c => rfl
  | none =>
    cases lookupL (normalize q) ALIASES with
    | some target => rfl
    | none =>
      cases getAllComponents.find? (fun c => c.tags.any (fun tag =>
          containsS tag (normalize q) || containsS (normalize q) tag)) with
      | some c => rfl
      | none => rfl

/-- C7 (amended): `findComponent` follows the fixed rule order — exact key,
    alias table, tag substring, key substring — with the alias rule
    short-circuiting (an alias whose target is missing yields not-found
    without trying the later rules); no rule hitting yields null, not an
    error; and `findComponent "modal"` returns the dialog record via the
    alias table ("modal" is not a table key). -/
theorem c7_rule_order :
    (∀ q : String, findComponent q = findComponentAliasCut q)
    ∧ findComponent "modal" = lookupL "dialog" COMPONENT_LIBRARY
    ∧ (lookupL "dialog" COMPONENT_LIBRARY).isSome = true
    ∧ lookupL "modal" ALIASES = some "dialog"
    ∧ lookupL "modal" COMPONENT_LIBRARY = none
    ∧ (∀ q : String, ruleExactKey (normalize q) = none →
        lookupL (normalize q) ALIASES = none → ruleTag (normalize q) = none →
        ruleName (normalize q) = none → findComponent q = none) := by
  refine ⟨findComponent_eq_aliasCut, by decide, by decide, by decide, by decide, ?_⟩
  intro q h1 h2 h3 h4
  rw [findComponent_eq_aliasCut q]
  simp only [findComponentAliasCut]
  rw [h1, h2, h3, h4]
  rfl

/-- C7 counterexample: for "radio button" the alias rule hits but its target
    "radio-group" is not a table key, so `findComponent` returns none even
    though the next rule (tag substring) would produce a component — the
    first-rule-that-produces-a-hit reading disagrees with the code. -/
theorem c7_counterexample :
    findComponent "radio button" = none
    ∧ (findComponentFirstHit "radio button").isSome = true
    ∧ findComponent "radio button" ≠ findComponentFirstHit "radio button" := by decide

/-! ## Claim theorems: the template conversation (C4) -/

/-- C4 (amended): starting from currentStep 0 with an empty answer map, four
    sequential calls (state carried forward, any answers supplied) transition
    currentStep 0→1→2→3→4, but the fourth response is the fourth question,
    not the template; the template is returned by a fifth call. -/
theorem c4_conversation_steps : ∀ a1 a2 a3 a4 a5 : String,
    processConversationStep ⟨0, 4, [], none⟩ a1 =
      .question ⟨1, 4, [], some "What is this landing page for?"⟩
    ∧ processConversationStep ⟨1, 4, [], some "What is this landing page for?"⟩ a2 =
      .question ⟨2, 4, [("purpose", a2)], some "Who is your target audience?"⟩
    ∧ processConversationStep
        ⟨2, 4, [("purpose", a2)], some "Who is your target audience?"⟩ a3 =
      .question ⟨3, 4, [("purpose", a2), ("targetAudience", a3)],
        some "What action do you want visitors to take?"⟩
    ∧ processConversationStep
        ⟨3, 4, [("purpose", a2), ("targetAudience", a3)],
          some "What action do you want visitors to take?"⟩ a4 =
      .question ⟨4, 4, [("purpose", a2), ("targetAudience", a3), ("desiredAction", a4)],
        some "What style or tone do you prefer?"⟩
    ∧ processConversationStep
        ⟨4, 4, [("purpose", a2), ("targetAudience", a3), ("desiredAction", a4)],
          some "What style or tone do you prefer?"⟩ a5 =
      .template (generateTemplateFromAnswers ⟨a2, a3, a4, a5⟩) := by
  intro a1 a2 a3 a4 a5
  exact ⟨rfl, rfl, rfl, rfl, rfl⟩

/-- C4 counterexample: with concrete answers, the fourth sequential call
    (from currentStep 0, state carried forward) returns a question — question
    4, with currentStep 4 — not the terminal rendered template; only the
    fifth call stops asking. -/
theorem c4_counterexample :
    processConversationStep ⟨0, 4, [], none⟩ "a" =
      .question ⟨1, 4, [], some "What is this landing page for?"⟩
    ∧ processConversationStep ⟨1, 4, [], some "What is this landing page for?"⟩ "b" =
      .question ⟨2, 4, [("purpose", "b")], some "Who is your target audience?"⟩
    ∧ processConversationStep
        ⟨2, 4, [("purpose", "b")], some "Who is your target audience?"⟩ "c" =
      .question ⟨3, 4, [("purpose", "b"), ("targetAudience", "c")],
        some "What action do you want visitors to take?"⟩
    ∧ (processConversationStep
        ⟨3, 4, [("purpose", "b"), ("targetAudience", "c")],
          some "What action do you want visitors to take?"⟩ "d").isQuestion = true
    ∧ processConversationStep
        ⟨3, 4, [("purpose", "b"), ("targetAudience", "c")],
          some "What action do you want visitors to take?"⟩ "d" =
      .question ⟨4, 4, [("purpose", "b"), ("targetAudience", "c"), ("desiredAction", "d")],
        some "What style or tone do you prefer?"⟩
    ∧ (processConversationStep
        ⟨4, 4, [("purpose", "b"), ("targetAudience", "c"), ("desiredAction", "d")],
          some "What style or tone do you prefer?"⟩ "e").isQuestion = false :=
  ⟨rfl, rfl, rfl, rfl, rfl, rfl⟩

/-! ## Helper lemmas for the visual pattern matcher (C8) -/

theorem mem_setAdd {s : List String} {c k : String} :
    k ∈ setAdd s c ↔ k ∈ s ∨ k = c := by
  unfold setAdd
  by_cases h : s.any (fun x => decide (x = c)) = true
  · rw [if_pos h]
    rcases List.any_eq_true.1 h with ⟨x, hx, hxc⟩
    simp only [decide_eq_true_eq] at hxc
    subst hxc
    constructor
    · exact Or.inl
    · rintro (hk | rfl)
      · exact hk
      · exact hx
  · rw [if_neg h]
    simp [List.mem_append]

theorem mem_foldl_setAdd {l : List String} :
    ∀ {s : List String} {k : String}, k ∈ l.foldl setAdd s ↔ k ∈ s ∨ k ∈ l := by
  induction l with
  | nil => intro s k; simp
  | cons a rest ih =>
    intro s k
    rw [List.foldl_cons, ih, mem_setAdd]
    simp only [List.mem_cons]
    tauto

theorem natMax_assoc (a b c : Nat) :
    Nat.max (Nat.max a b) c = Nat.max a (Nat.max b c) := Nat.max_assoc a b c

theorem natMax_self (a : Nat) : Nat.max a a = a := Nat.max_self a

theorem natMax_zero_left (a : Nat) : Nat.max 0 a = a :=
  Nat.max_eq_right (Nat.zero_le a)

theorem getD_lookup_prioUpdate (m : List (String × Nat)) (c : String) (p : Nat)
    (k : String) :
    (lookupL k (prioUpdate m c p)).getD 0 =
      if k = c then Nat.max ((lookupL k m).getD 0) p else (lookupL k m).getD 0 := by
  induction m with
  | nil =>
    simp only [prioUpdate, lookupL]
    split_ifs <;> simp
  | cons hd rest ih =>
    obtain ⟨k0, v⟩ := hd
    simp only [prioUpdate]
    by_cases h0 : k0 = c
    · subst h0
      rw [if_pos rfl]
      by_cases hk : k = k0
      · simp [lookupL, hk]
      · simp [lookupL, hk]
    · rw [if_neg h0]
      by_cases hk : k = k0
      · have hkc : ¬ k = c := fun h => h0 (hk ▸ h)
        simp [lookupL, hk, hkc, h0]
      · simp only [lookupL, if_neg hk]
        exact ih

theorem getD_foldl_prioUpdate (comps : List String) :
    ∀ (m : List (String × Nat)) (pri : Nat) (k : String),
    (lookupL k (comps.foldl (fun m2 c => prioUpdate m2 c pri) m)).getD 0 =
      if k ∈ comps then Nat.max ((lookupL k m).getD 0) pri
      else (lookupL k m).getD 0 := by
  induction comps with
  | nil => intro m pri k; simp
  | cons a rest ih =>
    intro m pri k
    rw [List.foldl_cons, ih, getD_lookup_prioUpdate]
    by_cases hka : k = a
    · rw [if_pos hka, if_pos (List.mem_cons.2 (Or.inl hka))]
      by_cases hk : k ∈ rest
      · rw [if_pos hk, natMax_assoc, natMax_self]
      · rw [if_neg hk]
    · rw [if_neg hka]
      by_cases hk : k ∈ rest
      · rw [if_pos hk, if_pos (List.mem_cons_of_mem a hk)]
      · rw [if_neg hk, if_neg (fun h => (List.mem_cons.1 h).elim hka hk)]

theorem foldl_pair_fst (l : List String) :
    ∀ (acc : List String × List (String × Nat)) (pri : Nat),
    (l.foldl (fun a comp => (setAdd a.1 comp, prioUpdate a.2 comp pri)) acc).1 =
      l.foldl setAdd acc.1 := by
  induction l with
  | nil => intro acc pri; rfl
  | cons a rest ih => intro acc pri; rw [List.foldl_cons, List.foldl_cons, ih]

theorem foldl_pair_snd (l : List String) :
    ∀ (acc : List String × List (String × Nat)) (pri : Nat),
    (l.foldl (fun a comp => (setAdd a.1 comp, prioUpdate a.2 comp pri)) acc).2 =
      l.foldl (fun m comp => prioUpdate m comp pri) acc.2 := by
  induction l with
  | nil => intro acc pri; rfl
  | cons a rest ih => intro acc pri; rw [List.foldl_cons, List.foldl_cons, ih]

theorem collectMatches_fst_mem (L : String) (pats : List (String × VisualPattern)) :
    ∀ (acc : List String × List (String × Nat)) (k : String),
    k ∈ (collectMatches L pats acc).1 ↔
      k ∈ acc.1 ∨ ∃ pr ∈ pats, patternMatched L pr.2 = true ∧ k ∈ pr.2.components := by
  induction pats with
  | nil => intro acc k; simp [collectMatches]
  | cons hd rest ih =>
    intro acc k
    obtain ⟨nm, pat⟩ := hd
    simp only [collectMatches]
    by_cases hm : patternMatched L pat = true
    · rw [if_pos hm, ih]
      have hfst : (addPatternComponents acc pat).1 = pat.components.foldl setAdd acc.1 :=
        foldl_pair_fst pat.components acc pat.priority
      rw [hfst, mem_foldl_setAdd]
      constructor
      · rintro ((h | h) | ⟨pr, hpr, hq⟩)
        · exact Or.inl h
        · exact Or.inr ⟨(nm, pat), List.mem_cons_self _ _, hm, h⟩
        · exact Or.inr ⟨pr, List.mem_cons_of_mem _ hpr, hq⟩
      · rintro (h | ⟨pr, hpr, hq⟩)
        · exact Or.inl (Or.inl h)
        · rcases List.mem_cons.1 hpr with rfl | hpr2
          · exact Or.inl (Or.inr hq.2)
          · exact Or.inr ⟨pr, hpr2, hq⟩
    · rw [if_neg hm, ih]
      constructor
      · rintro (h | ⟨pr, hpr, hq⟩)
        · exact Or.inl h
        · exact Or.inr ⟨pr, List.mem_cons_of_mem _ hpr, hq⟩
      · rintro (h | ⟨pr, hpr, hq⟩)
        · exact Or.inl h
        · rcases List.mem_cons.1 hpr with rfl | hpr2
          · exact absurd hq.1 hm
          · exact Or.inr ⟨pr, hpr2, hq⟩

theorem collectMatches_snd_getD (L : String) (pats : List (String × VisualPattern)) :
    ∀ (acc : List String × List (String × Nat)) (k : String),
    (lookupL k (collectMatches L pats acc).2).getD 0 =
      Nat.max ((lookupL k acc.2).getD 0) (bestOverP L k (pats.map (·.2))) := by
  induction pats with
  | nil => intro acc k; simp [collectMatches, bestOverP]
  | cons hd rest ih =>
    intro acc k
    obtain ⟨nm, pat⟩ := hd
    simp only [collectMatches, List.map_cons, bestOverP]
    by_cases hm : patternMatched L pat = true
    · rw [if_pos hm, ih]
      have hsnd : (addPatternComponents acc pat).2 =
          pat.components.foldl (fun m comp => prioUpdate m comp pat.priority) acc.2 :=
        foldl_pair_snd pat.components acc pat.priority
      rw [hsnd, getD_foldl_prioUpdate]
      by_cases hk : k ∈ pat.components
      · rw [if_pos hk, if_pos ⟨hm, hk⟩, natMax_assoc]
      · rw [if_neg hk, if_neg (fun h => hk h.2), natMax_zero_left]
    · rw [if_neg hm, ih, if_neg (fun h => hm h.1), natMax_zero_left]

theorem collectMatches_no_match (L : String) (pats : List (String × VisualPattern))
    (hnom : ∀ pr ∈ pats, patternMatched L pr.2 = false) :
    ∀ acc, collectMatches L pats acc = acc := by
  induction pats with
  | nil => intro acc; rfl
  | cons hd rest ih =>
    intro acc
    obtain ⟨nm, pat⟩ := hd
    simp only [collectMatches]
    rw [if_neg (by rw [hnom (nm, pat) (List.mem_cons_self _ _)]; exact Bool.false_ne_true)]
    exact ih (fun pr hpr => hnom pr (List.mem_cons_of_mem _ hpr)) acc

theorem foldl_best_eq (L k : String) (l : List VisualPattern) :
    ∀ a : Nat, (l.filter (patternMatched L)).foldl
        (fun acc p => if k ∈ p.components then Nat.max acc p.priority else acc) a =
      Nat.max a (bestOverP L k l) := by
  induction l with
  | nil => intro a; simp [bestOverP]
  | cons pat rest ih =>
    intro a
    simp only [bestOverP, List.filter_cons]
    by_cases hm : patternMatched L pat = true
    · rw [if_pos hm, List.foldl_cons, ih]
      by_cases hk : k ∈ pat.components
      · rw [if_pos hk, if_pos ⟨hm, hk⟩, natMax_assoc]
      · rw [if_neg hk, if_neg (fun h => hk h.2), natMax_zero_left]
    · rw [if_neg hm, ih, if_neg (fun h => hm h.1), natMax_zero_left]

theorem bestPriority_eq (analysis k : String) :
    bestPriority analysis k =
      bestOverP (lowerS analysis) k (VISUAL_PATTERNS.map (·.2)) := by
  unfold bestPriority matchedPatternList
  rw [foldl_best_eq, natMax_zero_left]

/-- Every component key suggested by a visual pattern is a table key whose
    stored record carries that very name. -/
theorem pattern_components_are_keys : ∀ pr ∈ VISUAL_PATTERNS, ∀ k ∈ pr.2.components,
    (lookupL k COMPONENT_LIBRARY).map (·.componentName) = some k := by decide

/-- Every visual pattern suggests at least one component. -/
theorem pattern_components_nonempty : ∀ pr ∈ VISUAL_PATTERNS,
    pr.2.components ≠ [] := by decide

theorem prioLe_trans (m : List (String × Nat)) :
    ∀ a b c : ComponentInfo, prioLe m a b → prioLe m b c → prioLe m a c := by
  intro a b c
  simp only [prioLe, decide_eq_true_eq]
  omega

theorem prioLe_total (m : List (String × Nat)) :
    ∀ a b : ComponentInfo, prioLe m a b || prioLe m b a := by
  intro a b
  simp only [prioLe, Bool.or_eq_true, decide_eq_true_eq]
  omega

/-- When some pattern matched, the matcher's components are the collected
    set, resolved against the table and stable-sorted by stored priority. -/
theorem matchComponents_of_matched (analysis : String)
    (hne : (collectMatches (lowerS analysis) VISUAL_PATTERNS ([], [])).1.isEmpty = false) :
    (matchComponentsFromAnalysis analysis).components =
      ((collectMatches (lowerS analysis) VISUAL_PATTERNS ([], [])).1.filterMap
        getComponentByName).mergeSort
        (prioLe (collectMatches (lowerS analysis) VISUAL_PATTERNS ([], [])).2) := by
  simp only [matchComponentsFromAnalysis]
  rw [hne, if_neg Bool.false_ne_true]

/-- The stored priority of any key after collection is the best priority of
    the matched patterns suggesting it. -/
theorem collected_priority_eq_best (analysis : String) (nm : String) :
    (lookupL nm (collectMatches (lowerS analysis) VISUAL_PATTERNS ([], [])).2).getD 0 =
      bestPriority analysis nm := by
  rw [collectMatches_snd_getD, bestPriority_eq]
  simp [lookupL, natMax_zero_left]

/-- C8: analysis text hitting no keyword yields exactly the fixed default
    trio (button, card, input); analysis text with at least one matched
    pattern yields exactly the union of the matched patterns' component
    lists, sorted by the highest suggesting-pattern priority, descending. -/
theorem c8_matcher : ∀ (analysis k : String),
    ((∀ pr ∈ VISUAL_PATTERNS, ∀ kw ∈ pr.2.keywords,
        containsS (lowerS analysis) kw = false) →
      (matchComponentsFromAnalysis analysis).components.map (·.componentName) =
        ["button", "card", "input"])
    ∧ (matchedPatternList analysis ≠ [] →
      ((∃ c ∈ (matchComponentsFromAnalysis analysis).components, c.componentName = k) ↔
        ∃ p ∈ matchedPatternList analysis, k ∈ p.components)
      ∧ (matchComponentsFromAnalysis analysis).components.Pairwise
          (fun a b => bestPriority analysis b.componentName ≤
            bestPriority analysis a.componentName)) := by
  intro analysis k
  constructor
  · -- default case
    intro hno
    have hnom : ∀ pr ∈ VISUAL_PATTERNS, patternMatched (lowerS analysis) pr.2 = false := by
      intro pr hpr
      rw [Bool.eq_false_iff]
      intro hm
      unfold patternMatched at hm
      rcases List.any_eq_true.1 hm with ⟨kw, hkw, hc⟩
      rw [hno pr hpr kw hkw] at hc
      cases hc
    have hcoll := collectMatches_no_match (lowerS analysis) VISUAL_PATTERNS hnom ([], [])
    simp only [matchComponentsFromAnalysis, hcoll]
    rw [List.mergeSort_of_sorted (by decide)]
    decide
  · -- matched case
    intro hne
    have hexists : ∃ pr ∈ VISUAL_PATTERNS, patternMatched (lowerS analysis) pr.2 = true := by
      cases hmp : matchedPatternList analysis with
      | nil => exact absurd hmp hne
      | cons p rest =>
        have hp : p ∈ matchedPatternList analysis := by
          rw [hmp]; exact List.mem_cons_self p rest
        unfold matchedPatternList at hp
        rcases List.mem_filter.1 hp with ⟨hmem, hmatch⟩
        rcases List.mem_map.1 hmem with ⟨pr, hpr, rfl⟩
        exact ⟨pr, hpr, hmatch⟩
    have hnotempty :
        (collectMatches (lowerS analysis) VISUAL_PATTERNS ([], [])).1.isEmpty = false := by
      obtain ⟨pr0, hpr0, hm0⟩ := hexists
      cases hc : pr0.2.components with
      | nil => exact absurd hc (pattern_components_nonempty pr0 hpr0)
      | cons k0 ks =>
        have hk0 : k0 ∈ (collectMatches (lowerS analysis) VISUAL_PATTERNS ([], [])).1 :=
          (collectMatches_fst_mem _ _ _ k0).2
            (Or.inr ⟨pr0, hpr0, hm0, by rw [hc]; exact List.mem_cons_self _ _⟩)
        cases hl : (collectMatches (lowerS analysis) VISUAL_PATTERNS ([], [])).1 with
        | nil => rw [hl] at hk0; cases hk0
        | cons a l => rfl
    rw [matchComponents_of_matched analysis hnotempty]
    constructor
    · -- membership characterisation
      constructor
      · rintro ⟨c, hc, hck⟩
        have hc2 := List.mem_mergeSort.1 hc
        rcases List.mem_filterMap.1 hc2 with ⟨k2, hk2, hlook⟩
        rcases (collectMatches_fst_mem _ _ _ k2).1 hk2 with h | ⟨pr, hpr, hm, hkc⟩
        · cases h
        · have hname := pattern_components_are_keys pr hpr k2 hkc
          have hl2 : lookupL k2 COMPONENT_LIBRARY = some c := hlook
          rw [hl2] at hname
          have hck2 : c.componentName = k2 := by simpa using hname
          refine ⟨pr.2, ?_, ?_⟩
          · unfold matchedPatternList
            exact List.mem_filter.2 ⟨List.mem_map_of_mem (·.2) hpr, hm⟩
          · rw [← hck, hck2]
            exact hkc
      · rintro ⟨p, hp, hkp⟩
        unfold matchedPatternList at hp
        rcases List.mem_filter.1 hp with ⟨hmem, hmatch⟩
        rcases List.mem_map.1 hmem with ⟨pr, hpr, rfl⟩
        have hkcoll : k ∈ (collectMatches (lowerS analysis) VISUAL_PATTERNS ([], [])).1 :=
          (collectMatches_fst_mem _ _ _ k).2 (Or.inr ⟨pr, hpr, hmatch, hkp⟩)
        have hname := pattern_components_are_keys pr hpr k hkp
        cases hl : lookupL k COMPONENT_LIBRARY with
        | none => rw [hl] at hname; cases hname
        | some c =>
          rw [hl] at hname
          refine ⟨c, List.mem_mergeSort.2 (List.mem_filterMap.2 ⟨k, hkcoll, hl⟩), ?_⟩
          simpa using hname
    · -- sortedness
      refine List.Pairwise.imp_of_mem ?_
        (List.sorted_mergeSort (prioLe_trans _) (prioLe_total _) _)
      intro a b _ _ hab
      simp only [prioLe, decide_eq_true_eq] at hab
      rw [collected_priority_eq_best, collected_priority_eq_best] at hab
      exact hab

/-- C8 witness: "zzzz" hits no keyword; "pricing table" matches the pricing
    and table patterns and "card" is among their suggestions. -/
theorem c8_witness :
    (matchComponentsFromAnalysis "zzzz").components.map (·.componentName) =
      ["button", "card", "input"]
    ∧ (((∃ c ∈ (matchComponentsFromAnalysis "pricing table").components,
          c.componentName = "card") ↔
        ∃ p ∈ matchedPatternList "pricing table", "card" ∈ p.components)
      ∧ (matchComponentsFromAnalysis "pricing table").components.Pairwise
          (fun a b => bestPriority "pricing table" b.componentName ≤
            bestPriority "pricing table" a.componentName)) :=
  ⟨(c8_matcher "zzzz" "card").1 (by decide),
   (c8_matcher "pricing table" "card").2 (by decide)⟩

/-- C5 witness: the empty query with limit 3; the button record is among the
    results and scores non-zero. -/
theorem c5_witness :
    ((searchComponentsRanked "" none 3).Pairwise
      (fun a b => scoreFor b (normalize "") ≤ scoreFor a (normalize "")))
    ∧ scoreFor buttonRecord (normalize "") ≠ 0 := by
  refine ⟨(ranked_sorted_and_no_zero "" none 3).1,
    (ranked_sorted_and_no_zero "" none 3).2 buttonRecord ?_⟩
  rw [searchRanked_norm_empty "" (by decide) 3]
  decide

/-- C7 witness: "zzzz" hits no rule and returns null, instantiating the
    rule-order equality and the not-found conjunct at a concrete query. -/
theorem c7_witness :
    findComponent "zzzz" = findComponentAliasCut "zzzz"
    ∧ findComponent "zzzz" = none :=
  ⟨c7_rule_order.1 "zzzz",
   c7_rule_order.2.2.2.2.2 "zzzz" (by decide) (by decide) (by decide) (by decide)⟩

end SuperUI
